import Mathlib

/-!
Verification development for the XDMF I/O module (`src/meshio/xdmf_io.py`).

Modelling conventions.
* Python exceptions are modelled by the `XdmfErr` sum type; the constructor
  comments record which Python exception each one stands for.
* Flat integer buffers are `List Int`; machine integer width never matters
  for the properties below (indices are only moved around, never combined
  arithmetically).
* Python `dict`s (which preserve insertion order) are association lists.
-/

/-- Failure values. Each constructor corresponds to a Python exception raised
by the source: `assertFailed` to a bare `AssertionError`, `malformedDocument`
to the `assert` sites that check document structure (child counts / tag
names), `unknownCellTag` to a `KeyError` in the integer-keyed cell-tag
tables, `unknownCellType` / `unknownTopologyName` to a `KeyError` in the
string-keyed type tables, `truncatedBuffer` to the `IndexError` that numpy
fancy indexing raises on an out-of-range index, `shapeMismatch` to the
`ValueError` of `reshape`, `parseError` to the `ValueError` of `int()`,
`notFound` to a `KeyError` while descending an HDF5 group hierarchy,
`ioError` to the `IOError` of opening a missing container file, and
`missingAttr` to a `KeyError` on an element's attribute dictionary. -/
inductive XdmfErr where
  | malformedDocument
  | unsupportedVersion
  | shapeMismatch
  | parseError
  | truncatedBuffer
  | unknownCellTag (tag : Int)
  | unknownCellType (name : String)
  | unknownTopologyName (name : String)
  | unknownType
  | notFound
  | ioError
  | missingAttr (key : String)
  | assertFailed
deriving DecidableEq

/-- Helper: interpret a Python dictionary lookup, raising `e` on a miss. -/
def ofOption {α : Type} (o : Option α) (e : XdmfErr) : Except XdmfErr α :=
  match o with
  | some a => Except.ok a
  | none => Except.error e

/-- The `xdmf_idx_to_num_nodes` dictionary local to `_translate_mixed_cells`
(arity of each version-3 mixed cell tag). -/
def xdmf_idx_to_num_nodes (t : Int) : Option Nat :=
  if t = 1 then some 1
  else if t = 4 then some 3
  else if t = 5 then some 4
  else if t = 6 then some 4
  else if t = 7 then some 5
  else if t = 8 then some 6
  else if t = 9 then some 8
  else if t = 11 then some 6
  else none

/-- The module-level `xdmf_idx_to_meshio_type` dictionary (note: it has no
entry for tag 11, unlike the arity table above). -/
def xdmf_idx_to_meshio_type (t : Int) : Option String :=
  if t = 1 then some "vertex"
  else if t = 4 then some "triangle"
  else if t = 5 then some "quad"
  else if t = 6 then some "tetra"
  else if t = 7 then some "pyramid"
  else if t = 8 then some "wedge"
  else if t = 9 then some "hexahedron"
  else none

/-- `meshio_type_to_xdmf_index`, the inversion of `xdmf_idx_to_meshio_type`. -/
def meshio_type_to_xdmf_index (s : String) : Option Int :=
  if s = "vertex" then some 1
  else if s = "triangle" then some 4
  else if s = "quad" then some 5
  else if s = "tetra" then some 6
  else if s = "pyramid" then some 7
  else if s = "wedge" then some 8
  else if s = "hexahedron" then some 9
  else none

/-- The module-level `xdmf_to_meshio_type` dictionary (version-2 string
topology names). -/
def xdmf_to_meshio_type (s : String) : Option String :=
  if s = "Polyvertex" then some "vertex"
  else if s = "Triangle" then some "triangle"
  else if s = "Quadrilateral" then some "quad"
  else if s = "Tetrahedron" then some "tetra"
  else if s = "Pyramid" then some "pyramid"
  else if s = "Wedge" then some "wedge"
  else if s = "Hexahedron" then some "hexahedron"
  else if s = "Edge_3" then some "line3"
  else if s = "Tri_6" then some "triangle6"
  else if s = "Quad_8" then some "quad8"
  else if s = "Tet_10" then some "tetra10"
  else if s = "Pyramid_13" then some "pyramid13"
  else if s = "Wedge_15" then some "wedge15"
  else if s = "Hex_20" then some "hexahedron20"
  else none

/-- `meshio_to_xdmf_type`, the inversion of `xdmf_to_meshio_type`. -/
def meshio_to_xdmf_type (s : String) : Option String :=
  if s = "vertex" then some "Polyvertex"
  else if s = "triangle" then some "Triangle"
  else if s = "quad" then some "Quadrilateral"
  else if s = "tetra" then some "Tetrahedron"
  else if s = "pyramid" then some "Pyramid"
  else if s = "wedge" then some "Wedge"
  else if s = "hexahedron" then some "Hexahedron"
  else if s = "line3" then some "Edge_3"
  else if s = "triangle6" then some "Tri_6"
  else if s = "quad8" then some "Quad_8"
  else if s = "tetra10" then some "Tet_10"
  else if s = "pyramid13" then some "Pyramid_13"
  else if s = "wedge15" then some "Wedge_15"
  else if s = "hexahedron20" then some "Hex_20"
  else none

/-- The scan loop of `_translate_mixed_cells` (`while r < len(data): ...`):
collect `(tag, offset)` pairs, advancing the cursor by `arity(tag) + 1`;
an arity-table miss is the Python `KeyError` on `data[r]`. -/
def scanMixed (data : List Int) (r : Nat) : Except XdmfErr (List (Int × Nat)) :=
  if h : r < data.length then
    match xdmf_idx_to_num_nodes data[r] with
    | some n => (scanMixed data (r + n + 1)).map (fun rest => (data[r], r) :: rest)
    | none => Except.error (XdmfErr.unknownCellTag data[r])
  else Except.ok []
termination_by data.length - r
decreasing_by omega

/-- The numpy gather `data[numpy.arange(1, n+1) + o]` reading positions
`start, start+1, ..., start+n-1` (with `start = o + 1`); an out-of-range
position is the `IndexError` of fancy indexing. -/
def gatherRange (data : List Int) (start : Nat) : Nat → Except XdmfErr (List Int)
  | 0 => Except.ok []
  | Nat.succ k =>
    match data[start]? with
    | some v => (gatherRange data (start + 1) k).map (fun rest => v :: rest)
    | none => Except.error XdmfErr.truncatedBuffer

/-- Sorted duplicate-free insertion, used to model `numpy.unique`. -/
def insertTag (x : Int) : List Int → List Int
  | [] => [x]
  | y :: ys => if x < y then x :: y :: ys else if x = y then y :: ys else y :: insertTag x ys

/-- `numpy.unique(types)`: the distinct values in ascending order. -/
def sortedUnique (l : List Int) : List Int := l.foldr insertTag []

/-- `offsets[numpy.where(types == u)[0]]`: the offsets of the records whose
tag is `u`, in scan order. -/
def binOffsets (recs : List (Int × Nat)) (u : Int) : List Nat :=
  (recs.filter (fun p => p.1 == u)).map Prod.snd

/-- One iteration of the `for tpe, b in bins.items()` loop of
`_translate_mixed_cells`: translate the tag to a meshio name (`KeyError` for
tags missing from `xdmf_idx_to_meshio_type`, e.g. 11), run the
`assert (data[offsets[b]] == tpe).all()`, look up the arity, and gather each
record's node indices. -/
def translateBin (data : List Int) (recs : List (Int × Nat)) (u : Int) :
    Except XdmfErr (String × List (List Int)) := do
  let name ← ofOption (xdmf_idx_to_meshio_type u) (XdmfErr.unknownCellTag u)
  if (binOffsets recs u).all (fun o => data[o]? == some u) then do
    let n ← ofOption (xdmf_idx_to_num_nodes u) (XdmfErr.unknownCellTag u)
    let rows ← (binOffsets recs u).mapM (fun o => gatherRange data (o + 1) n)
    Except.ok (name, rows)
  else Except.error XdmfErr.assertFailed

/-- `_translate_mixed_cells`: scan the flat buffer, then build the ordered
cells dictionary, one bin per distinct tag in ascending tag order (the order
produced by `numpy.unique`). -/
def translate_mixed_cells (data : List Int) :
    Except XdmfErr (List (String × List (List Int))) := do
  let recs ← scanMixed data 0
  (sortedUnique (recs.map Prod.fst)).mapM (translateBin data recs)

/-- The mixed-topology encoding loop of `write` (`for key, value in
cells.items(): d = numpy.column_stack([full(len(value), idx), value])`),
viewed at the level of the flat integer token sequence it inlines. -/
def encodeMixedCells : List (String × List (List Int)) → Except XdmfErr (List Int)
  | [] => Except.ok []
  | (k, v) :: rest => do
    let tag ← ofOption (meshio_type_to_xdmf_index k) (XdmfErr.unknownCellType k)
    let rest2 ← encodeMixedCells rest
    Except.ok ((v.map (fun row => tag :: row)).flatten ++ rest2)

/-- First-appearance order of the values of a list (the order the
specification ascribes to the decode output map). -/
def firstAppear (l : List Int) : List Int :=
  l.foldl (fun acc t => if t ∈ acc then acc else acc ++ [t]) []

/-- The total buffer length implied by a scanned record list:
`Σ (arity(tag) + 1)` over its records. -/
def recordSpan (recs : List (Int × Nat)) : Nat :=
  recs.foldr (fun p acc => ((xdmf_idx_to_num_nodes p.1).getD 0 + 1) + acc) 0

/-! ### Generic `Except` and `mapM` helper lemmas -/

/-- Inversion for a successful `Except` bind. -/
lemma except_bind_ok {ε α β : Type} {x : Except ε α} {f : α → Except ε β} {b : β}
    (h : x >>= f = Except.ok b) : ∃ a, x = Except.ok a ∧ f a = Except.ok b := by
  cases x with
  | ok a => exact ⟨a, rfl, h⟩
  | error e => simp [Bind.bind, Except.bind] at h

/-- Inversion for a successful `Except` map. -/
lemma except_map_ok {ε α β : Type} {x : Except ε α} {g : α → β} {b : β}
    (h : x.map g = Except.ok b) : ∃ a, x = Except.ok a ∧ g a = b := by
  cases x with
  | ok a =>
    refine ⟨a, rfl, ?_⟩
    simpa [Except.map] using h
  | error e => simp [Except.map] at h

lemma ofOption_ok {α : Type} {o : Option α} {e : XdmfErr} {a : α} :
    ofOption o e = Except.ok a ↔ o = some a := by
  cases o <;> simp [ofOption]

@[simp] lemma ofOption_some {α : Type} (a : α) (e : XdmfErr) :
    ofOption (some a) e = Except.ok a := rfl

@[simp] lemma except_ok_bind {ε α β : Type} (a : α) (f : α → Except ε β) :
    (Except.ok a >>= f) = f a := rfl

@[simp] lemma except_error_bind {ε α β : Type} (e : ε) (f : α → Except ε β) :
    ((Except.error e : Except ε α) >>= f) = Except.error e := rfl

lemma mapM_ok_of_forall {α β : Type} (f : α → Except XdmfErr β) (g : α → β) :
    ∀ l : List α, (∀ a ∈ l, f a = Except.ok (g a)) → l.mapM f = Except.ok (l.map g) := by
  intro l
  induction l with
  | nil => intro _; rfl
  | cons a l ih =>
    intro h
    rw [List.mapM_cons, h a (by simp), ih (fun b hb => h b (by simp [hb]))]
    rfl

lemma mapM_error_of_split {α β : Type} (f : α → Except XdmfErr β) (e : XdmfErr) :
    ∀ (l1 : List α) (u : α) (l2 : List α), (∀ a ∈ l1, ∃ b, f a = Except.ok b) →
      f u = Except.error e → (l1 ++ u :: l2).mapM f = Except.error e := by
  intro l1
  induction l1 with
  | nil =>
    intro u l2 _ hu
    rw [List.nil_append, List.mapM_cons, hu]
    rfl
  | cons a l1 ih =>
    intro u l2 hok hu
    obtain ⟨b, hb⟩ := hok a (by simp)
    rw [List.cons_append, List.mapM_cons, hb]
    have := ih u l2 (fun c hc => hok c (by simp [hc])) hu
    rw [this]
    rfl

/-- Inversion of the first step of `translateBin`: a successful bin carries
the meshio name of its tag. -/
lemma translateBin_ok_name {data : List Int} {recs : List (Int × Nat)} {u : Int}
    {p : String × List (List Int)}
    (h : translateBin data recs u = Except.ok p) :
    xdmf_idx_to_meshio_type u = some p.1 := by
  unfold translateBin at h
  obtain ⟨s, hs, h2⟩ := except_bind_ok h
  rw [ofOption_ok] at hs
  rw [hs]
  split at h2
  · obtain ⟨n, _, h3⟩ := except_bind_ok h2
    obtain ⟨rows, _, h4⟩ := except_bind_ok h3
    injection h4 with h5
    rw [← h5]
  · exact absurd h2 (by simp)

lemma translateBin_ok_of {data : List Int} {recs : List (Int × Nat)} {u : Int}
    {s : String} {n : Nat} {rows : List (List Int)}
    (hname : xdmf_idx_to_meshio_type u = some s)
    (hall : ((binOffsets recs u).all fun o => data[o]? == some u) = true)
    (harity : xdmf_idx_to_num_nodes u = some n)
    (hmap : (binOffsets recs u).mapM (fun o => gatherRange data (o + 1) n) = Except.ok rows) :
    translateBin data recs u = Except.ok (s, rows) := by
  unfold translateBin
  rw [hname, harity]
  simp only [ofOption_some, except_ok_bind]
  rw [if_pos hall, hmap]
  rfl

lemma translateBin_err_of {data : List Int} {recs : List (Int × Nat)} {u : Int}
    {s : String} {n : Nat} {e : XdmfErr}
    (hname : xdmf_idx_to_meshio_type u = some s)
    (hall : ((binOffsets recs u).all fun o => data[o]? == some u) = true)
    (harity : xdmf_idx_to_num_nodes u = some n)
    (hmap : (binOffsets recs u).mapM (fun o => gatherRange data (o + 1) n) = Except.error e) :
    translateBin data recs u = Except.error e := by
  unfold translateBin
  rw [hname, harity]
  simp only [ofOption_some, except_ok_bind]
  rw [if_pos hall, hmap]
  rfl

/-! ### The scan on well-formed flat buffers -/

/-- A buffer presented as a list of records, each a tag followed by its row
of node indices. -/
def flatRecs : List (Int × List Int) → List Int
  | [] => []
  | (t, row) :: rest => t :: (row ++ flatRecs rest)

/-- The `(tag, offset)` pairs the scan produces on a flat record list whose
first record sits at offset `r`. -/
def zipOffs (r : Nat) : List (Int × List Int) → List (Int × Nat)
  | [] => []
  | (t, row) :: rest => (t, r) :: zipOffs (r + row.length + 1) rest

/-- Well-formedness: every record's tag is in the arity table, with the arity
of its row. -/
def recsWF (rs : List (Int × List Int)) : Prop :=
  ∀ p ∈ rs, xdmf_idx_to_num_nodes p.1 = some p.2.length

/-- Decomposing a record layout at offset `r`. -/
lemma drop_record {data : List Int} {r : Nat} {t : Int} {row tail : List Int}
    (hd : data.drop r = t :: (row ++ tail)) :
    ∃ h : r < data.length, data[r] = t ∧ data.drop (r + 1) = row ++ tail ∧
      data.drop (r + row.length + 1) = tail ∧ r + row.length + 1 ≤ data.length := by
  have hlen := congrArg List.length hd
  simp only [List.length_drop, List.length_cons, List.length_append] at hlen
  have hr : r < data.length := by omega
  have h2 := List.drop_eq_getElem_cons hr
  rw [hd] at h2
  injection h2 with ht hdr
  refine ⟨hr, ht.symm, hdr.symm, ?_, by omega⟩
  have h3 : data.drop (r + 1 + row.length) = tail := by
    rw [← List.drop_drop, ← hdr, List.drop_left]
  rw [show r + row.length + 1 = r + 1 + row.length from by omega]
  exact h3

/-- The scan of a well-formed flat buffer succeeds and records each tag at
its record's start offset. -/
lemma scanMixed_flat : ∀ (rs : List (Int × List Int)) (data : List Int) (r : Nat),
    r ≤ data.length → data.drop r = flatRecs rs → recsWF rs →
    scanMixed data r = Except.ok (zipOffs r rs) := by
  intro rs
  induction rs with
  | nil =>
    intro data r hr hd _
    have hlen := congrArg List.length hd
    simp only [List.length_drop, flatRecs, List.length_nil] at hlen
    rw [scanMixed, dif_neg (by omega : ¬ r < data.length)]
    rfl
  | cons p rest ih =>
    obtain ⟨t, row⟩ := p
    intro data r hr hd hwf
    rw [flatRecs] at hd
    obtain ⟨hrlt, hget, hdr1, hdrop, hle⟩ := drop_record hd
    have harity : xdmf_idx_to_num_nodes t = some row.length := hwf (t, row) (by simp)
    have hrec := ih data (r + row.length + 1) hle hdrop
      (fun q hq => hwf q (by simp [hq]))
    have hstep : scanMixed data r =
        (scanMixed data (r + row.length + 1)).map (fun rest => (t, r) :: rest) := by
      rw [scanMixed, dif_pos hrlt, hget, harity]
    rw [hstep, hrec, zipOffs]
    rfl

/-- Offsets recorded by `zipOffs` really carry their record's tag. -/
lemma zipOffs_get : ∀ (rs : List (Int × List Int)) (data : List Int) (r : Nat),
    data.drop r = flatRecs rs → ∀ p ∈ zipOffs r rs, data[p.2]? = some p.1 := by
  intro rs
  induction rs with
  | nil => intro data r _ p hp; simp [zipOffs] at hp
  | cons q rest ih =>
    obtain ⟨t, row⟩ := q
    intro data r hd p hp
    rw [flatRecs] at hd
    obtain ⟨hrlt, hget, _, hdrop, _⟩ := drop_record hd
    rw [zipOffs] at hp
    rcases List.mem_cons.mp hp with h | h
    · rw [h]
      simp [List.getElem?_eq_getElem hrlt, hget]
    · exact ih data (r + row.length + 1) hdrop p h

/-- `zipOffs` does not change the tag sequence. -/
lemma zipOffs_map_fst : ∀ (rs : List (Int × List Int)) (r : Nat),
    (zipOffs r rs).map Prod.fst = rs.map Prod.fst := by
  intro rs
  induction rs with
  | nil => intro r; rfl
  | cons q rest ih =>
    obtain ⟨t, row⟩ := q
    intro r
    simp [zipOffs, ih]

/-! ### `gatherRange` lemmas -/

/-- Gathering a complete record row returns exactly that row. -/
lemma gatherRange_of_drop : ∀ (row data tail : List Int) (s : Nat),
    data.drop s = row ++ tail → gatherRange data s row.length = Except.ok row := by
  intro row
  induction row with
  | nil => intro data tail s _; rfl
  | cons v row ih =>
    intro data tail s hd
    rw [List.cons_append] at hd
    obtain ⟨hslt, hget, hdr1, _, _⟩ := drop_record hd
    have hv : data[s]? = some v := by simp [List.getElem?_eq_getElem hslt, hget]
    rw [List.length_cons, gatherRange, hv, ih data tail (s + 1) hdr1]
    rfl

/-- A gather of `n` positions starting inside the buffer succeeds whenever
the last position is in range. -/
lemma gatherRange_isOk : ∀ (n : Nat) (data : List Int) (s : Nat), s + n ≤ data.length →
    ∃ v, gatherRange data s n = Except.ok v := by
  intro n
  induction n with
  | zero => intro data s _; exact ⟨[], rfl⟩
  | succ k ih =>
    intro data s hle
    have hslt : s < data.length := by omega
    obtain ⟨v, hv⟩ := ih data (s + 1) (by omega)
    refine ⟨data[s] :: v, ?_⟩
    rw [gatherRange, List.getElem?_eq_getElem hslt, hv]
    rfl

/-- A gather that would pass the end of the buffer fails with the
out-of-bounds `IndexError` (modelled `truncatedBuffer`). -/
lemma gatherRange_err : ∀ (n : Nat) (data : List Int) (s : Nat),
    data.length < s + n → s ≤ data.length →
    gatherRange data s n = Except.error XdmfErr.truncatedBuffer := by
  intro n
  induction n with
  | zero => intro data s h1 h2; omega
  | succ k ih =>
    intro data s h1 h2
    rcases Nat.lt_or_ge s data.length with hs | hs
    · rw [gatherRange, List.getElem?_eq_getElem hs, ih data (s + 1) (by omega) (by omega)]
      rfl
    · have : data[s]? = none := by
        rw [List.getElem?_eq_none]
        omega
      rw [gatherRange, this]

/-! ### `sortedUnique` lemmas -/

lemma mem_insertTag {x y : Int} : ∀ l : List Int, y ∈ insertTag x l ↔ y = x ∨ y ∈ l := by
  intro l
  induction l with
  | nil => simp [insertTag]
  | cons a l ih =>
    rw [insertTag]
    split_ifs with h1 h2
    · simp
    · subst h2
      constructor
      · intro hy
        exact Or.inr hy
      · intro hy
        rcases hy with hy | hy
        · rw [hy]
          simp
        · exact hy
    · rw [List.mem_cons, ih, List.mem_cons]
      tauto

lemma sortedUnique_cons (a : Int) (l : List Int) :
    sortedUnique (a :: l) = insertTag a (sortedUnique l) := rfl

lemma mem_sortedUnique {y : Int} : ∀ l : List Int, y ∈ sortedUnique l ↔ y ∈ l := by
  intro l
  induction l with
  | nil => simp [sortedUnique]
  | cons a l ih =>
    rw [sortedUnique_cons, mem_insertTag]
    simp [ih]

lemma pairwise_insertTag {x : Int} : ∀ l : List Int,
    List.Pairwise (· < ·) l → List.Pairwise (· < ·) (insertTag x l) := by
  intro l
  induction l with
  | nil => intro _; simp [insertTag]
  | cons a l ih =>
    intro hp
    rw [insertTag]
    rcases List.pairwise_cons.mp hp with ⟨ha, hl⟩
    split_ifs with h1 h2
    · exact List.pairwise_cons.mpr ⟨by
        intro z hz
        rcases List.mem_cons.mp hz with h | h
        · omega
        · have := ha z h
          omega, hp⟩
    · exact hp
    · refine List.pairwise_cons.mpr ⟨?_, ih hl⟩
      intro z hz
      rcases (mem_insertTag _).mp hz with h | h
      · omega
      · exact ha z h

lemma pairwise_sortedUnique : ∀ l : List Int, List.Pairwise (· < ·) (sortedUnique l) := by
  intro l
  induction l with
  | nil => simp [sortedUnique]
  | cons a l ih => exact pairwise_insertTag _ ih

/-- Splitting a strictly sorted list at a member: everything before it is
strictly smaller. -/
lemma sorted_split {u : Int} : ∀ l : List Int, List.Pairwise (· < ·) l → u ∈ l →
    ∃ l1 l2, l = l1 ++ u :: l2 ∧ ∀ v ∈ l1, v < u := by
  intro l
  induction l with
  | nil => intro _ h; simp at h
  | cons a l ih =>
    intro hp hm
    rcases List.pairwise_cons.mp hp with ⟨ha, hl⟩
    rcases List.mem_cons.mp hm with h | h
    · exact ⟨[], l, by rw [h]; rfl, by simp⟩
    · obtain ⟨l1, l2, heq, hlt⟩ := ih hl h
      refine ⟨a :: l1, l2, by rw [heq]; rfl, ?_⟩
      intro v hv
      rcases List.mem_cons.mp hv with h2 | h2
      · rw [h2]
        exact ha u h
      · exact hlt v h2

/-! ### Cell-type table lemmas -/

lemma tag_of_tag_name {t : Int} {s : String} (h : xdmf_idx_to_meshio_type t = some s) :
    meshio_type_to_xdmf_index s = some t := by
  unfold xdmf_idx_to_meshio_type at h
  split_ifs at h with e1 e2 e3 e4 e5 e6 e7 <;>
    (injection h with hs; subst hs; subst_vars; decide)

lemma name_of_type_tag {s : String} {t : Int} (h : meshio_type_to_xdmf_index s = some t) :
    xdmf_idx_to_meshio_type t = some s := by
  unfold meshio_type_to_xdmf_index at h
  split_ifs at h with e1 e2 e3 e4 e5 e6 e7 <;>
    (injection h with ht; subst_vars; decide)

lemma arity_of_type_tag {s : String} {t : Int} (h : meshio_type_to_xdmf_index s = some t) :
    ∃ n, xdmf_idx_to_num_nodes t = some n := by
  unfold meshio_type_to_xdmf_index at h
  split_ifs at h with e1 e2 e3 e4 e5 e6 e7 <;>
    (injection h with ht; subst_vars; exact ⟨_, rfl⟩)

lemma tag_lt_of_tag_name {t : Int} {s : String} (h : xdmf_idx_to_meshio_type t = some s) :
    t < 11 := by
  unfold xdmf_idx_to_meshio_type at h
  split_ifs at h with e1 e2 e3 e4 e5 e6 e7 <;> omega

lemma tag_name_of_arity {t : Int} {n : Nat} (h : xdmf_idx_to_num_nodes t = some n)
    (h11 : t ≠ 11) : ∃ s, xdmf_idx_to_meshio_type t = some s := by
  unfold xdmf_idx_to_num_nodes at h
  split_ifs at h with e1 e2 e3 e4 e5 e6 e7 e8 <;> first
    | (exact absurd (by subst_vars; rfl) h11)
    | (subst_vars; exact ⟨_, rfl⟩)

/-! ### Bins on well-formed flat buffers -/

lemma binOffsets_cons (t : Int) (r : Nat) (l : List (Int × Nat)) (u : Int) :
    binOffsets ((t, r) :: l) u =
      if t == u then r :: binOffsets l u else binOffsets l u := by
  unfold binOffsets
  by_cases h : t == u <;> simp [List.filter_cons, h]

lemma mem_binOffsets {recs : List (Int × Nat)} {u : Int} {o : Nat}
    (h : o ∈ binOffsets recs u) : (u, o) ∈ recs := by
  unfold binOffsets at h
  obtain ⟨p, hp, hpo⟩ := List.mem_map.mp h
  obtain ⟨hmem, hu⟩ := List.mem_filter.mp hp
  obtain ⟨p1, p2⟩ := p
  have h1 : p1 = u := by simpa using hu
  have h2 : p2 = o := hpo
  subst h1
  subst h2
  exact hmem

/-- Gathering all the bins of tag `u` on a well-formed flat buffer yields that
tag's rows in record order. -/
lemma bin_gather : ∀ (rs : List (Int × List Int)) (data : List Int) (r : Nat) (u : Int) (n : Nat),
    data.drop r = flatRecs rs → recsWF rs → xdmf_idx_to_num_nodes u = some n →
    (binOffsets (zipOffs r rs) u).mapM (fun o => gatherRange data (o + 1) n) =
      Except.ok ((rs.filter (fun p => p.1 == u)).map Prod.snd) := by
  intro rs
  induction rs with
  | nil => intro data r u n _ _ _; rfl
  | cons q rest ih =>
    obtain ⟨t, row⟩ := q
    intro data r u n hd hwf hu
    rw [flatRecs] at hd
    obtain ⟨hrlt, hget, hdr1, hdrop, hle⟩ := drop_record hd
    have ht : xdmf_idx_to_num_nodes t = some row.length := hwf (t, row) (by simp)
    have ihr := ih data (r + row.length + 1) u n hdrop (fun q hq => hwf q (by simp [hq])) hu
    rw [zipOffs, binOffsets_cons]
    by_cases htu : t = u
    · subst htu
      have hn : n = row.length := by
        rw [ht] at hu
        injection hu with h2
        omega
      subst hn
      rw [if_pos (by simp), List.mapM_cons,
        gatherRange_of_drop row data (flatRecs rest) (r + 1) hdr1, except_ok_bind, ihr]
      simp [List.filter_cons]
    · rw [if_neg (by simp [htu]), ihr, List.filter_cons, if_neg (by simp [htu])]

/-- Full characterisation of `_translate_mixed_cells` on a well-formed flat
buffer whose tags are all translatable: one bin per distinct tag in
ascending tag order, each carrying that tag's rows in record order. -/
lemma translate_flat (rs : List (Int × List Int)) (data : List Int)
    (hd : data = flatRecs rs) (hwf : recsWF rs)
    (hname : ∀ p ∈ rs, ∃ s, xdmf_idx_to_meshio_type p.1 = some s) :
    translate_mixed_cells data = Except.ok
      ((sortedUnique (rs.map Prod.fst)).map (fun u =>
        ((xdmf_idx_to_meshio_type u).getD "",
         (rs.filter (fun p => p.1 == u)).map Prod.snd))) := by
  have hdr : data.drop 0 = flatRecs rs := by simpa using hd
  have hscan : scanMixed data 0 = Except.ok (zipOffs 0 rs) :=
    scanMixed_flat rs data 0 (by omega) hdr hwf
  unfold translate_mixed_cells
  rw [hscan, except_ok_bind, zipOffs_map_fst]
  apply mapM_ok_of_forall
  intro u hu
  rw [mem_sortedUnique] at hu
  obtain ⟨p, hp, hpu⟩ := List.mem_map.mp hu
  obtain ⟨s, hs⟩ := hname p hp
  have harity := hwf p hp
  rw [hpu] at hs harity
  have hall : ((binOffsets (zipOffs 0 rs) u).all fun o => data[o]? == some u) = true := by
    rw [List.all_eq_true]
    intro o ho
    have := zipOffs_get rs data 0 hdr (u, o) (mem_binOffsets ho)
    simpa using this
  have hbin := bin_gather rs data 0 u p.2.length hdr hwf harity
  rw [translateBin_ok_of hs hall harity hbin, hs]
  rfl

/-! ### Encode-side lemmas -/

/-- The record list the mixed encoder emits: one `(tag, row)` record per row,
keys in map order, rows in array order. -/
def mixedRecords (m : List (String × List (List Int))) : List (Int × List Int) :=
  (m.map (fun p => p.2.map
    (fun row => ((meshio_type_to_xdmf_index p.1).getD 0, row)))).flatten

lemma flatRecs_append : ∀ a b : List (Int × List Int),
    flatRecs (a ++ b) = flatRecs a ++ flatRecs b := by
  intro a
  induction a with
  | nil => intro b; rfl
  | cons q rest ih =>
    obtain ⟨t, row⟩ := q
    intro b
    simp [flatRecs, ih]

lemma flatRecs_rows (t : Int) : ∀ v : List (List Int),
    flatRecs (v.map (fun row => (t, row))) = (v.map (fun row => t :: row)).flatten := by
  intro v
  induction v with
  | nil => rfl
  | cons row v ih => simp [flatRecs, ih]

/-- The encoder output is the flat buffer of `mixedRecords`. -/
lemma encode_eq_flat : ∀ m : List (String × List (List Int)),
    (∀ p ∈ m, (meshio_type_to_xdmf_index p.1).isSome) →
    encodeMixedCells m = Except.ok (flatRecs (mixedRecords m)) := by
  intro m
  induction m with
  | nil => intro _; rfl
  | cons q rest ih =>
    obtain ⟨k, v⟩ := q
    intro htags
    obtain ⟨tk, htk⟩ := Option.isSome_iff_exists.mp (htags (k, v) (by simp))
    rw [encodeMixedCells, htk]
    simp only [ofOption_some, except_ok_bind]
    rw [ih (fun p hp => htags p (by simp [hp]))]
    simp only [except_ok_bind]
    have hmr : mixedRecords ((k, v) :: rest) =
        v.map (fun row => (tk, row)) ++ mixedRecords rest := by
      unfold mixedRecords
      simp [htk]
    rw [hmr, flatRecs_append, flatRecs_rows]

lemma mixedRecords_wf {m : List (String × List (List Int))}
    (htype : ∀ p ∈ m, ∃ t n, meshio_type_to_xdmf_index p.1 = some t ∧
      xdmf_idx_to_num_nodes t = some n ∧ ∀ row ∈ p.2, row.length = n) :
    recsWF (mixedRecords m) := by
  intro q hq
  unfold mixedRecords at hq
  rw [List.mem_flatten] at hq
  obtain ⟨l, hl, hql⟩ := hq
  obtain ⟨p, hp, hpl⟩ := List.mem_map.mp hl
  obtain ⟨t, n, ht, hn, hrows⟩ := htype p hp
  rw [← hpl] at hql
  obtain ⟨row, hrow, hq2⟩ := List.mem_map.mp hql
  rw [← hq2]
  simp only [ht, Option.getD_some]
  rw [hn, hrows row hrow]

lemma mixedRecords_names {m : List (String × List (List Int))}
    (htype : ∀ p ∈ m, ∃ t n, meshio_type_to_xdmf_index p.1 = some t ∧
      xdmf_idx_to_num_nodes t = some n ∧ ∀ row ∈ p.2, row.length = n) :
    ∀ q ∈ mixedRecords m, ∃ s, xdmf_idx_to_meshio_type q.1 = some s := by
  intro q hq
  unfold mixedRecords at hq
  rw [List.mem_flatten] at hq
  obtain ⟨l, hl, hql⟩ := hq
  obtain ⟨p, hp, hpl⟩ := List.mem_map.mp hl
  obtain ⟨t, n, ht, hn, _⟩ := htype p hp
  rw [← hpl] at hql
  obtain ⟨row, _, hq2⟩ := List.mem_map.mp hql
  rw [← hq2]
  simp only [ht, Option.getD_some]
  exact ⟨p.1, name_of_type_tag ht⟩

/-- A key's tag is among the emitted tags as soon as the key has one row. -/
lemma mem_tags_mixedRecords : ∀ (m : List (String × List (List Int)))
    (k : String) (v : List (List Int)) (tk : Int), (k, v) ∈ m → v ≠ [] →
    meshio_type_to_xdmf_index k = some tk → tk ∈ (mixedRecords m).map Prod.fst := by
  intro m
  induction m with
  | nil => intro k v tk h _ _; simp at h
  | cons q rest ih =>
    intro k v tk hm hne htk
    rcases List.mem_cons.mp hm with h | h
    · obtain ⟨row, rows, hv⟩ : ∃ row rows, v = row :: rows := by
        cases v with
        | nil => exact absurd rfl hne
        | cons row rows => exact ⟨row, rows, rfl⟩
      rw [← h, hv]
      unfold mixedRecords
      simp [htk]
    · have := ih k v tk h hne htk
      obtain ⟨q1, q2⟩ := q
      unfold mixedRecords at this ⊢
      simp only [List.map_cons, List.flatten_cons, List.map_append, List.mem_append]
      exact Or.inr this

/-- Every emitted tag is the tag of one of the map's keys. -/
lemma tags_mixedRecords_sub {m : List (String × List (List Int))} {u : Int}
    (htags : ∀ p ∈ m, (meshio_type_to_xdmf_index p.1).isSome)
    (hu : u ∈ (mixedRecords m).map Prod.fst) :
    ∃ p ∈ m, meshio_type_to_xdmf_index p.1 = some u := by
  obtain ⟨q, hq, hqu⟩ := List.mem_map.mp hu
  unfold mixedRecords at hq
  rw [List.mem_flatten] at hq
  obtain ⟨l, hl, hql⟩ := hq
  obtain ⟨p, hp, hpl⟩ := List.mem_map.mp hl
  obtain ⟨tk, htk⟩ := Option.isSome_iff_exists.mp (htags p hp)
  rw [← hpl] at hql
  obtain ⟨row, _, hq2⟩ := List.mem_map.mp hql
  refine ⟨p, hp, ?_⟩
  rw [htk]
  rw [← hq2] at hqu
  simp only [htk, Option.getD_some] at hqu
  rw [hqu]

/-- Filtering the emitted records at a key's tag recovers exactly that key's
rows, in order (keys are distinct and the tag table is injective). -/
lemma filter_mixedRecords : ∀ (m : List (String × List (List Int)))
    (k : String) (v : List (List Int)) (tk : Int),
    (m.map Prod.fst).Nodup → (k, v) ∈ m → meshio_type_to_xdmf_index k = some tk →
    (∀ p ∈ m, (meshio_type_to_xdmf_index p.1).isSome) →
    ((mixedRecords m).filter (fun p => p.1 == tk)).map Prod.snd = v := by
  intro m
  induction m with
  | nil => intro k v tk _ h _ _; simp at h
  | cons q rest ih =>
    obtain ⟨k1, v1⟩ := q
    intro k v tk hnd hm htk htags
    have hnd1 : (rest.map Prod.fst).Nodup := (List.nodup_cons.mp hnd).2
    have hk1 : k1 ∉ rest.map Prod.fst := (List.nodup_cons.mp hnd).1
    obtain ⟨t1, ht1⟩ := Option.isSome_iff_exists.mp (htags (k1, v1) (by simp))
    have hmr : mixedRecords ((k1, v1) :: rest) =
        v1.map (fun row => (t1, row)) ++ mixedRecords rest := by
      unfold mixedRecords
      simp [ht1]
    rcases List.mem_cons.mp hm with h | h
    · injection h with hkk hvv
      subst hkk
      subst hvv
      have htt : t1 = tk := by
        rw [htk] at ht1
        injection ht1 with h2
        exact h2.symm
      subst htt
      rw [hmr, List.filter_append, List.map_append]
      have hfv : ((v.map (fun row => (t1, row))).filter (fun p => p.1 == t1)).map Prod.snd
          = v := by
        rw [List.filter_eq_self.mpr]
        · simp
        · intro q hq
          obtain ⟨row, _, hq2⟩ := List.mem_map.mp hq
          rw [← hq2]
          simp
      have hfr : (mixedRecords rest).filter (fun p => p.1 == t1) = [] := by
        rw [List.filter_eq_nil_iff]
        intro q hq
        intro hqt
        have hq1 : q.1 = t1 := by simpa using hqt
        have : t1 ∈ (mixedRecords rest).map Prod.fst := by
          rw [← hq1]
          exact List.mem_map_of_mem Prod.fst hq
        obtain ⟨p, hp, hpt⟩ := tags_mixedRecords_sub
          (fun p hp => htags p (by simp [hp])) this
        have := name_of_type_tag hpt
        have h2 := name_of_type_tag ht1
        rw [this] at h2
        injection h2 with h3
        have h5 : p.1 ∈ rest.map Prod.fst := List.mem_map_of_mem Prod.fst hp
        rw [h3] at h5
        exact hk1 h5
      rw [hfv, hfr]
      simp
    · have htt : t1 ≠ tk := by
        intro he
        subst he
        have h2 := name_of_type_tag ht1
        have h3 := name_of_type_tag htk
        rw [h2] at h3
        injection h3 with h4
        rw [← h4] at h
        exact hk1 (List.mem_map_of_mem Prod.fst h)
      rw [hmr, List.filter_append, List.map_append]
      have hfv : (v1.map (fun row => (t1, row))).filter (fun p => p.1 == tk) = [] := by
        rw [List.filter_eq_nil_iff]
        intro q hq
        obtain ⟨row, _, hq2⟩ := List.mem_map.mp hq
        rw [← hq2]
        simp [htt]
      rw [hfv]
      simp only [List.map_nil, List.nil_append]
      exact ih k v tk hnd1 h htk (fun p hp => htags p (by simp [hp]))

/-- Association lookup over a mapped list whose matching key is unique. -/
lemma lookup_map_of_unique {β : Type} (g : Int → String × β) (k : String) (u0 : Int) :
    ∀ l : List Int, u0 ∈ l → (g u0).1 = k → (∀ u ∈ l, (g u).1 = k → u = u0) →
      (l.map g).lookup k = some (g u0).2 := by
  intro l
  induction l with
  | nil => intro h _ _; simp at h
  | cons a l ih =>
    intro hmem hk huniq
    rcases hga : g a with ⟨s0, b0⟩
    rw [List.map_cons, hga, List.lookup_cons]
    by_cases hs : s0 = k
    · have ha1 : (g a).1 = k := by rw [hga]; exact hs
      have hau : a = u0 := huniq a (by simp) ha1
      have hbeq : (k == s0) = true := by simp [hs]
      rw [hbeq]
      show some b0 = some (g u0).2
      rw [← hau, hga]
    · have hbeq : (k == s0) = false := by
        simp only [beq_eq_false_iff_ne, ne_eq]
        intro h2
        exact hs h2.symm
      rw [hbeq]
      show (l.map g).lookup k = some (g u0).2
      apply ih
      · rcases List.mem_cons.mp hmem with h | h
        · exfalso
          rw [h, hga] at hk
          exact hs hk
        · exact h
      · exact hk
      · intro u hu hku
        exact huniq u (by simp [hu]) hku

/-- C1. For any mapping from cell types (each having an entry in the
writer's mixed-tag table) to non-empty, arity-consistent 2-D integer index
arrays, decoding the mixed-cell encoding yields, for each type present, an
index array with identical rows in identical order (cross-type interleave
order is not required to match: the decoder groups by ascending tag). -/
theorem C1_mixed_roundtrip (m : List (String × List (List Int)))
    (hnd : (m.map Prod.fst).Nodup)
    (hne : ∀ p ∈ m, p.2 ≠ [])
    (htype : ∀ p ∈ m, ∃ t n, meshio_type_to_xdmf_index p.1 = some t ∧
      xdmf_idx_to_num_nodes t = some n ∧ ∀ row ∈ p.2, row.length = n) :
    ∃ buf cells, encodeMixedCells m = Except.ok buf ∧
      translate_mixed_cells buf = Except.ok cells ∧
      ∀ p ∈ m, cells.lookup p.1 = some p.2 := by
  have htags : ∀ p ∈ m, (meshio_type_to_xdmf_index p.1).isSome := by
    intro p hp
    obtain ⟨t, n, ht, _, _⟩ := htype p hp
    simp [ht]
  have henc := encode_eq_flat m htags
  have hdec := translate_flat (mixedRecords m) (flatRecs (mixedRecords m)) rfl
    (mixedRecords_wf htype) (mixedRecords_names htype)
  refine ⟨flatRecs (mixedRecords m), _, henc, hdec, ?_⟩
  intro p hp
  obtain ⟨k, v⟩ := p
  obtain ⟨tk, n, htk, harity, _⟩ := htype (k, v) hp
  have hmem : tk ∈ sortedUnique ((mixedRecords m).map Prod.fst) := by
    rw [mem_sortedUnique]
    exact mem_tags_mixedRecords m k v tk hp (hne (k, v) hp) htk
  have hname := name_of_type_tag htk
  have hgk : ((fun u => ((xdmf_idx_to_meshio_type u).getD "",
      ((mixedRecords m).filter (fun q => q.1 == u)).map Prod.snd)) tk).1 = k := by
    simp [hname]
  have huniq : ∀ u ∈ sortedUnique ((mixedRecords m).map Prod.fst),
      ((fun u => ((xdmf_idx_to_meshio_type u).getD "",
        ((mixedRecords m).filter (fun q => q.1 == u)).map Prod.snd)) u).1 = k → u = tk := by
    intro u hu hgu
    rw [mem_sortedUnique] at hu
    obtain ⟨p2, hp2, hpt⟩ := tags_mixedRecords_sub htags hu
    have hn2 := name_of_type_tag hpt
    simp only [hn2, Option.getD_some] at hgu
    rw [hgu] at hpt
    rw [htk] at hpt
    injection hpt with h3
    exact h3.symm
  have hlk := lookup_map_of_unique
    (fun u => ((xdmf_idx_to_meshio_type u).getD "",
      ((mixedRecords m).filter (fun q => q.1 == u)).map Prod.snd)) k tk
    (sortedUnique ((mixedRecords m).map Prod.fst)) hmem hgk huniq
  rw [hlk]
  show some (((mixedRecords m).filter (fun q => q.1 == tk)).map Prod.snd) = some v
  rw [filter_mixedRecords m k v tk hnd hp htk htags]

/-! ### The scan on arbitrary (possibly truncated) buffers -/

lemma recordSpan_cons (t : Int) (o : Nat) (l : List (Int × Nat)) :
    recordSpan ((t, o) :: l) = ((xdmf_idx_to_num_nodes t).getD 0 + 1) + recordSpan l := rfl

lemma mapM_isOk_of_forall {α β : Type} (f : α → Except XdmfErr β) :
    ∀ l : List α, (∀ a ∈ l, ∃ b, f a = Except.ok b) → ∃ v, l.mapM f = Except.ok v := by
  intro l
  induction l with
  | nil => intro _; exact ⟨[], rfl⟩
  | cons a l ih =>
    intro h
    obtain ⟨b, hb⟩ := h a (by simp)
    obtain ⟨v, hv⟩ := ih (fun c hc => h c (by simp [hc]))
    refine ⟨b :: v, ?_⟩
    rw [List.mapM_cons, hb, except_ok_bind, hv]
    rfl

/-- One-step inversion of a successful scan. -/
lemma scanMixed_ok_cases {data : List Int} {r : Nat} {recs : List (Int × Nat)}
    (h : scanMixed data r = Except.ok recs) :
    (data.length ≤ r ∧ recs = []) ∨
    ∃ (hr : r < data.length) (n : Nat) (rest : List (Int × Nat)),
      xdmf_idx_to_num_nodes data[r] = some n ∧
      scanMixed data (r + n + 1) = Except.ok rest ∧ recs = (data[r], r) :: rest := by
  by_cases hr : r < data.length
  · rw [scanMixed, dif_pos hr] at h
    cases hn : xdmf_idx_to_num_nodes data[r] with
    | some n =>
      rw [hn] at h
      obtain ⟨rest, hrest, hcons⟩ := except_map_ok h
      exact Or.inr ⟨hr, n, rest, hn, hrest, hcons.symm⟩
    | none =>
      rw [hn] at h
      cases h
  · rw [scanMixed, dif_neg hr] at h
    injection h with h2
    exact Or.inl ⟨by omega, h2.symm⟩

/-- Structure of any successful scan: all records carry their tag at their
offset; every record but the last ends inside the buffer; the last record's
end (= the initial cursor plus the record span) is at or past the end. -/
lemma scanMixed_decomp : ∀ (recs : List (Int × Nat)) (data : List Int) (r : Nat),
    scanMixed data r = Except.ok recs →
    (recs = [] ∧ data.length ≤ r) ∨
    ∃ (pre : List (Int × Nat)) (t : Int) (o : Nat) (n : Nat),
      recs = pre ++ [(t, o)] ∧ xdmf_idx_to_num_nodes t = some n ∧
      o < data.length ∧ data[o]? = some t ∧ data.length ≤ o + n + 1 ∧
      r + recordSpan recs = o + n + 1 ∧
      (∀ p ∈ pre, ∃ m2, xdmf_idx_to_num_nodes p.1 = some m2 ∧
        p.2 + m2 + 1 ≤ data.length ∧ data[p.2]? = some p.1) := by
  intro recs
  induction recs with
  | nil =>
    intro data r h
    rcases scanMixed_ok_cases h with ⟨h1, _⟩ | ⟨hr, n, rest, _, _, hcons⟩
    · exact Or.inl ⟨rfl, h1⟩
    · cases hcons
  | cons p recs ih =>
    intro data r h
    rcases scanMixed_ok_cases h with ⟨_, h2⟩ | ⟨hr, n, rest, hn, hrest, hcons⟩
    · cases h2
    · injection hcons with hp hrest2
      subst hrest2
      rcases ih data (r + n + 1) hrest with ⟨hnil, hle⟩ |
        ⟨pre, t, o, n2, heq, hn2, ho, hdo, hlast, hspan, hpre⟩
      · subst hnil
        refine Or.inr ⟨[], data[r], r, n, by rw [hp]; rfl, hn, hr,
          List.getElem?_eq_getElem hr, hle, ?_, by simp⟩
        rw [hp, recordSpan_cons, hn]
        simp [recordSpan]
        omega
      · refine Or.inr ⟨p :: pre, t, o, n2, by rw [heq, hp]; rfl, hn2, ho, hdo, hlast, ?_, ?_⟩
        · rw [hp, recordSpan_cons, hn]
          simp only [Option.getD_some]
          omega
        · intro q hq
          rcases List.mem_cons.mp hq with h3 | h3
          · subst h3
            rw [hp]
            refine ⟨n, hn, ?_, List.getElem?_eq_getElem hr⟩
            -- `recs` is nonempty here, so the next record starts inside the buffer
            have : r + n + 1 < data.length := by
              rcases scanMixed_ok_cases hrest with ⟨_, hnil2⟩ | ⟨hr2, _, _, _, _, _⟩
              · exfalso
                rw [hnil2] at heq
                exact absurd heq (by simp)
              · exact hr2
            omega
          · exact hpre q h3

/-- C2 (amended). Decoding a truncated buffer — one whose length is not the
sum of `arity(tag) + 1` over the scanned records — fails with the
out-of-bounds error (`TruncatedBuffer`) provided the overrunning final
record's tag is translatable (i.e. not tag 11, whose translation-table miss
fires first); it never silently drops the partial trailing record. -/
theorem C2_truncated_decode (data : List Int) (recs : List (Int × Nat))
    (hscan : scanMixed data 0 = Except.ok recs)
    (htrunc : recordSpan recs ≠ data.length)
    (h11 : ∀ p, recs.getLast? = some p → p.1 ≠ 11) :
    translate_mixed_cells data = Except.error XdmfErr.truncatedBuffer := by
  rcases scanMixed_decomp recs data 0 hscan with ⟨hnil, hle⟩ |
    ⟨pre, t, o, n, heq, hn, ho, hdo, hlast, hspan, hpre⟩
  · exfalso
    subst hnil
    simp [recordSpan] at htrunc
    omega
  · rw [Nat.zero_add] at hspan
    have hlen : data.length < o + n + 1 := by
      rcases Nat.lt_or_ge data.length (o + n + 1) with h | h
      · exact h
      · exact absurd (by omega) htrunc
    have ht11 : t ≠ 11 := by
      apply h11 (t, o)
      rw [heq]
      exact List.getLast?_concat _
    obtain ⟨s, hs⟩ := tag_name_of_arity hn ht11
    have htlt : t < 11 := tag_lt_of_tag_name hs
    -- tag facts for every record
    have hrec_tag : ∀ p ∈ recs, data[p.2]? = some p.1 := by
      intro p hp
      rw [heq] at hp
      rcases List.mem_append.mp hp with h3 | h3
      · obtain ⟨m2, _, _, h4⟩ := hpre p h3
        exact h4
      · rw [List.mem_singleton.mp h3]
        exact hdo
    have hrec_mem : ∀ u ∈ recs.map Prod.fst, u ≠ t →
        ∃ p ∈ pre, p.1 = u := by
      intro u hu hut
      obtain ⟨p, hp, hpu⟩ := List.mem_map.mp hu
      rw [heq] at hp
      rcases List.mem_append.mp hp with h3 | h3
      · exact ⟨p, h3, hpu⟩
      · rw [List.mem_singleton.mp h3] at hpu
        exact absurd hpu.symm hut
    -- split the sorted tag list at t
    have htmem : t ∈ sortedUnique (recs.map Prod.fst) := by
      rw [mem_sortedUnique, heq]
      simp
    obtain ⟨l1, l2, hsplit, hl1lt⟩ := sorted_split (sortedUnique (recs.map Prod.fst))
      (pairwise_sortedUnique _) htmem
    -- the whole decode
    unfold translate_mixed_cells
    rw [hscan, except_ok_bind, hsplit]
    apply mapM_error_of_split
    · -- bins before `t` all succeed
      intro u hu
      have humem : u ∈ recs.map Prod.fst := by
        rw [← mem_sortedUnique, hsplit]
        simp [hu]
      have hult : u < t := hl1lt u hu
      obtain ⟨p, hp, hpu⟩ := hrec_mem u humem (by omega)
      obtain ⟨m2, hm2, hcomplete, _⟩ := hpre p hp
      rw [hpu] at hm2
      obtain ⟨su, hsu⟩ := tag_name_of_arity hm2 (by omega)
      have hall : ((binOffsets recs u).all fun o2 => data[o2]? == some u) = true := by
        rw [List.all_eq_true]
        intro o2 ho2
        have := hrec_tag (u, o2) (mem_binOffsets ho2)
        simpa using this
      have hgmap : ∃ rows, (binOffsets recs u).mapM
          (fun o2 => gatherRange data (o2 + 1) m2) = Except.ok rows := by
        apply mapM_isOk_of_forall
        intro o2 ho2
        have hmem2 := mem_binOffsets ho2
        rw [heq] at hmem2
        rcases List.mem_append.mp hmem2 with h3 | h3
        · obtain ⟨m3, hm3, hc3, _⟩ := hpre (u, o2) h3
          rw [hm3] at hm2
          injection hm2 with hm4
          apply gatherRange_isOk
          omega
        · exfalso
          have := List.mem_singleton.mp h3
          injection this with h4
          omega
      obtain ⟨rows, hrows⟩ := hgmap
      exact ⟨(su, rows), translateBin_ok_of hsu hall hm2 hrows⟩
    · -- the bin of `t` hits the truncated record
      have hall : ((binOffsets recs t).all fun o2 => data[o2]? == some t) = true := by
        rw [List.all_eq_true]
        intro o2 ho2
        have := hrec_tag (t, o2) (mem_binOffsets ho2)
        simpa using this
      have hbins : binOffsets recs t = binOffsets pre t ++ [o] := by
        rw [heq]
        unfold binOffsets
        rw [List.filter_append, List.map_append]
        simp
      have hgmap : (binOffsets recs t).mapM (fun o2 => gatherRange data (o2 + 1) n) =
          Except.error XdmfErr.truncatedBuffer := by
        rw [hbins]
        apply mapM_error_of_split
        · intro o2 ho2
          obtain ⟨m3, hm3, hc3, _⟩ := hpre (t, o2) (mem_binOffsets ho2)
          rw [hm3] at hn
          injection hn with hm4
          apply gatherRange_isOk
          omega
        · exact gatherRange_err n data (o + 1) (by omega) (by omega)
      exact translateBin_err_of hs hall hn hgmap

/-! ### Output key order -/

lemma mapM_translateBin_keys : ∀ (l data : List Int) (recs : List (Int × Nat))
    (out : List (String × List (List Int))),
    l.mapM (translateBin data recs) = Except.ok out →
    out.map Prod.fst = l.filterMap xdmf_idx_to_meshio_type := by
  intro l
  induction l with
  | nil =>
    intro data recs out h
    injection h with h2
    rw [← h2]
    rfl
  | cons u l ih =>
    intro data recs out h
    rw [List.mapM_cons] at h
    obtain ⟨p, hp, h2⟩ := except_bind_ok h
    obtain ⟨rest, hrest, h3⟩ := except_bind_ok h2
    injection h3 with h4
    rw [← h4]
    have hname := translateBin_ok_name hp
    simp [List.filterMap_cons, hname, ih data recs rest hrest]

/-- C3 (amended). The decode output map's insertion order is the ascending
numeric order of the distinct tags (the order `numpy.unique` produces), not
first-appearance order: the keys are the translations of `sortedUnique` of
the scanned tags, which is strictly sorted and has the same members as the
scanned tag sequence. -/
theorem C3_key_order (data : List Int) (cells : List (String × List (List Int)))
    (h : translate_mixed_cells data = Except.ok cells) :
    ∃ recs, scanMixed data 0 = Except.ok recs ∧
      cells.map Prod.fst =
        (sortedUnique (recs.map Prod.fst)).filterMap xdmf_idx_to_meshio_type ∧
      List.Pairwise (· < ·) (sortedUnique (recs.map Prod.fst)) ∧
      (∀ u, u ∈ sortedUnique (recs.map Prod.fst) ↔ u ∈ recs.map Prod.fst) := by
  unfold translate_mixed_cells at h
  obtain ⟨recs, hrecs, h2⟩ := except_bind_ok h
  exact ⟨recs, hrecs, mapM_translateBin_keys _ data recs cells h2,
    pairwise_sortedUnique _, fun u => mem_sortedUnique _⟩

/-! ### Concrete evaluations -/

lemma translate_single (t : Int) (row : List Int) (s : String)
    (harity : xdmf_idx_to_num_nodes t = some row.length)
    (hname : xdmf_idx_to_meshio_type t = some s) :
    translate_mixed_cells (t :: row) = Except.ok [(s, [row])] := by
  have hflat : (t :: row) = flatRecs [(t, row)] := by simp [flatRecs]
  have h := translate_flat [(t, row)] (t :: row) hflat
    (by
      intro p hp
      rw [List.mem_singleton] at hp
      subst hp
      exact harity)
    (by
      intro p hp
      rw [List.mem_singleton] at hp
      subst hp
      exact ⟨s, hname⟩)
  rw [h]
  simp [sortedUnique, insertTag, List.filter, hname]

/-- C1 witness: the round-trip theorem applied at a two-type mapping. -/
theorem C1_witness : ∃ buf cells,
    encodeMixedCells [("triangle", [[0, 1, 2]]), ("vertex", [[7]])] = Except.ok buf ∧
    translate_mixed_cells buf = Except.ok cells ∧
    ∀ p ∈ [("triangle", [[0, 1, 2]]), ("vertex", [[7]])], cells.lookup p.1 = some p.2 :=
  C1_mixed_roundtrip [("triangle", [[0, 1, 2]]), ("vertex", [[7]])] (by decide) (by decide)
    (by
      intro p hp
      fin_cases hp
      · exact ⟨4, 3, by decide, by decide, by decide⟩
      · exact ⟨1, 1, by decide, by decide, by decide⟩)

/-- C1 counterexample: for the mapping `{triangle6 ↦ [[0,1,2,3,4,5]]}` — a
cell type the §3 table gives version-3 mixed tag 11 — the encoder raises
`KeyError` (`meshio_type_to_xdmf_index` has no entry), so `decode(encode(m))`
does not reproduce the mapping. -/
theorem C1_counterexample :
    encodeMixedCells [("triangle6", [[0, 1, 2, 3, 4, 5]])] =
      Except.error (XdmfErr.unknownCellType "triangle6") ∧
    ∀ buf, encodeMixedCells [("triangle6", [[0, 1, 2, 3, 4, 5]])] ≠ Except.ok buf := by
  constructor
  · rfl
  · intro buf h
    rw [show encodeMixedCells [("triangle6", [[0, 1, 2, 3, 4, 5]])] =
      Except.error (XdmfErr.unknownCellType "triangle6") from rfl] at h
    cases h

/-- C2 witness: the truncated buffer `[4, 0, 1]` (a triangle record cut
short) makes decode fail with the out-of-bounds error. -/
theorem C2_witness :
    translate_mixed_cells [4, 0, 1] = Except.error XdmfErr.truncatedBuffer := by
  have hscan : scanMixed [4, 0, 1] 0 = Except.ok [(4, 0)] := by
    rw [scanMixed]
    norm_num [xdmf_idx_to_num_nodes]
    rw [scanMixed]
    norm_num
    rfl
  exact C2_truncated_decode [4, 0, 1] [(4, 0)] hscan (by decide) (by decide)

/-- C2 counterexample: the buffer `[11, 0]` is truncated (its single record
needs 7 entries) yet decode fails with the tag-11 translation `KeyError`,
not `TruncatedBuffer`. -/
theorem C2_counterexample :
    scanMixed [11, 0] 0 = Except.ok [(11, 0)] ∧
    recordSpan [(11, 0)] = 7 ∧ ([11, 0] : List Int).length = 2 ∧
    translate_mixed_cells [11, 0] = Except.error (XdmfErr.unknownCellTag 11) ∧
    translate_mixed_cells [11, 0] ≠ Except.error XdmfErr.truncatedBuffer := by
  have hscan : scanMixed [11, 0] 0 = Except.ok [(11, 0)] := by
    rw [scanMixed]
    norm_num [xdmf_idx_to_num_nodes]
    rw [scanMixed]
    norm_num
    rfl
  have htr : translate_mixed_cells [11, 0] = Except.error (XdmfErr.unknownCellTag 11) := by
    unfold translate_mixed_cells
    rw [hscan]
    rfl
  refine ⟨hscan, rfl, rfl, htr, ?_⟩
  rw [htr]
  intro hc
  injection hc with h2
  cases h2

/-- C3 counterexample: in the buffer `[4,0,1,2, 1,5]` the triangle record
(tag 4) appears before the vertex record (tag 1), but the decoded map lists
`vertex` first: output order is ascending tag order, not first-appearance
order. -/
theorem C3_counterexample :
    scanMixed [4, 0, 1, 2, 1, 5] 0 = Except.ok [(4, 0), (1, 4)] ∧
    translate_mixed_cells [4, 0, 1, 2, 1, 5] =
      Except.ok [("vertex", [[5]]), ("triangle", [[0, 1, 2]])] ∧
    (firstAppear [4, 1]).filterMap xdmf_idx_to_meshio_type = ["triangle", "vertex"] ∧
    (["vertex", "triangle"] : List String) ≠ ["triangle", "vertex"] := by
  have hscan : scanMixed [4, 0, 1, 2, 1, 5] 0 = Except.ok [(4, 0), (1, 4)] := by
    rw [scanMixed]
    norm_num [xdmf_idx_to_num_nodes]
    rw [scanMixed]
    norm_num [xdmf_idx_to_num_nodes]
    rw [scanMixed]
    norm_num
    rfl
  have htr : translate_mixed_cells [4, 0, 1, 2, 1, 5] =
      Except.ok [("vertex", [[5]]), ("triangle", [[0, 1, 2]])] := by
    unfold translate_mixed_cells
    rw [hscan]
    rfl
  exact ⟨hscan, htr, by decide, by decide⟩

/-- C3 witness: the amended key-order theorem applied at the buffer
`[4,0,1,2, 1,5]`. -/
theorem C3_witness : ∃ recs, scanMixed [4, 0, 1, 2, 1, 5] 0 = Except.ok recs ∧
    (([("vertex", [[5]]), ("triangle", [[0, 1, 2]])] :
        List (String × List (List Int))).map Prod.fst) =
      (sortedUnique (recs.map Prod.fst)).filterMap xdmf_idx_to_meshio_type ∧
    List.Pairwise (· < ·) (sortedUnique (recs.map Prod.fst)) ∧
    (∀ u, u ∈ sortedUnique (recs.map Prod.fst) ↔ u ∈ recs.map Prod.fst) := by
  apply C3_key_order
  have hscan : scanMixed [4, 0, 1, 2, 1, 5] 0 = Except.ok [(4, 0), (1, 4)] := by
    rw [scanMixed]
    norm_num [xdmf_idx_to_num_nodes]
    rw [scanMixed]
    norm_num [xdmf_idx_to_num_nodes]
    rw [scanMixed]
    norm_num
    rfl
  unfold translate_mixed_cells
  rw [hscan]
  rfl

/-- C5. The arity table matches the §3 table on all eight tags, and a tag
outside the tables fails with `UnknownCellTag`; but a well-formed record with
tag 11 (triangle6, per the arity table's own comment) does NOT decode to
`triangle6` — the translation table `xdmf_idx_to_meshio_type` lacks entry 11
and the decode fails with the same `KeyError` instead. The seven other tags
decode to their §3 cell types. -/
theorem C5_tag_table :
    xdmf_idx_to_num_nodes 1 = some 1 ∧ xdmf_idx_to_num_nodes 4 = some 3 ∧
    xdmf_idx_to_num_nodes 5 = some 4 ∧ xdmf_idx_to_num_nodes 6 = some 4 ∧
    xdmf_idx_to_num_nodes 7 = some 5 ∧ xdmf_idx_to_num_nodes 8 = some 6 ∧
    xdmf_idx_to_num_nodes 9 = some 8 ∧ xdmf_idx_to_num_nodes 11 = some 6 ∧
    xdmf_idx_to_num_nodes 2 = none ∧
    translate_mixed_cells [2, 0] = Except.error (XdmfErr.unknownCellTag 2) ∧
    translate_mixed_cells [1, 9] = Except.ok [("vertex", [[9]])] ∧
    translate_mixed_cells [4, 0, 1, 2] = Except.ok [("triangle", [[0, 1, 2]])] ∧
    translate_mixed_cells [5, 0, 1, 2, 3] = Except.ok [("quad", [[0, 1, 2, 3]])] ∧
    translate_mixed_cells [6, 0, 1, 2, 3] = Except.ok [("tetra", [[0, 1, 2, 3]])] ∧
    translate_mixed_cells [7, 0, 1, 2, 3, 4] = Except.ok [("pyramid", [[0, 1, 2, 3, 4]])] ∧
    translate_mixed_cells [8, 0, 1, 2, 3, 4, 5] = Except.ok [("wedge", [[0, 1, 2, 3, 4, 5]])] ∧
    translate_mixed_cells [9, 0, 1, 2, 3, 4, 5, 6, 7] =
      Except.ok [("hexahedron", [[0, 1, 2, 3, 4, 5, 6, 7]])] ∧
    xdmf_idx_to_meshio_type 11 = none ∧
    translate_mixed_cells [11, 0, 1, 2, 3, 4, 5] =
      Except.error (XdmfErr.unknownCellTag 11) ∧
    translate_mixed_cells [11, 0, 1, 2, 3, 4, 5] ≠
      Except.ok [("triangle6", [[0, 1, 2, 3, 4, 5]])] := by
  have h2 : translate_mixed_cells [2, 0] = Except.error (XdmfErr.unknownCellTag 2) := by
    unfold translate_mixed_cells
    rw [scanMixed]
    norm_num [xdmf_idx_to_num_nodes]
  have hscan11 : scanMixed [11, 0, 1, 2, 3, 4, 5] 0 = Except.ok [(11, 0)] := by
    rw [scanMixed]
    norm_num [xdmf_idx_to_num_nodes]
    rw [scanMixed]
    norm_num
    rfl
  have h11 : translate_mixed_cells [11, 0, 1, 2, 3, 4, 5] =
      Except.error (XdmfErr.unknownCellTag 11) := by
    unfold translate_mixed_cells
    rw [hscan11]
    rfl
  refine ⟨rfl, rfl, rfl, rfl, rfl, rfl, rfl, rfl, rfl, h2,
    translate_single 1 [9] "vertex" (by decide) (by decide),
    translate_single 4 [0, 1, 2] "triangle" (by decide) (by decide),
    translate_single 5 [0, 1, 2, 3] "quad" (by decide) (by decide),
    translate_single 6 [0, 1, 2, 3] "tetra" (by decide) (by decide),
    translate_single 7 [0, 1, 2, 3, 4] "pyramid" (by decide) (by decide),
    translate_single 8 [0, 1, 2, 3, 4, 5] "wedge" (by decide) (by decide),
    translate_single 9 [0, 1, 2, 3, 4, 5, 6, 7] "hexahedron" (by decide) (by decide),
    rfl, h11, ?_⟩
  rw [h11]
  intro hc
  cases hc

/-! ### Arrays, XML elements and the HDF5 container model -/

/-- The four numeric kinds (`numpy.int32/int64/float32/float64`). -/
inductive DType where
  | int32
  | int64
  | float32
  | float64
deriving DecidableEq

/-- An array element: an integer value, or a floating token carried
uninterpreted (no claim below depends on float arithmetic). -/
inductive Scalar where
  | intS (i : Int)
  | floatS (tok : String)
deriving DecidableEq

/-- A numpy array: dtype, shape, and the row-major flat element list. -/
structure NDArray where
  dtype : DType
  shape : List Nat
  data : List Scalar
deriving DecidableEq

/-- An `xml.etree` element: tag, attribute dictionary, element text
(modelled as its whitespace-token list), children in document order. -/
inductive XElem where
  | mk (tag : String) (attrib : List (String × String)) (text : List String)
      (children : List XElem)

def XElem.tag : XElem → String
  | .mk t _ _ _ => t

def XElem.attrib : XElem → List (String × String)
  | .mk _ a _ _ => a

def XElem.text : XElem → List String
  | .mk _ _ tx _ => tx

def XElem.children : XElem → List XElem
  | .mk _ _ _ c => c

/-- `elem.attrib[k]` (`KeyError` on a missing attribute). -/
def getAttr (e : XElem) (k : String) : Except XdmfErr String :=
  match e.attrib.lookup k with
  | some v => Except.ok v
  | none => Except.error (XdmfErr.missingAttr k)

/-- An h5py object: a dataset holding an array, or a group mapping names to
child objects. -/
inductive H5Node where
  | dataset (arr : NDArray)
  | group (entries : List (String × H5Node))

/-- The file system visible to `h5py.File`: path → container root (if the
file exists). -/
def FileSys : Type := String → Option H5Node

/-! Reducible string utilities: Python's `str.split(sep)`, `int()`, string
indexing and slicing, and the `os.path` helpers are modelled over the
character list (the library versions do not matter here; only single
character separators and plain decimal integers occur). -/

/-- `str.split(sep)` for a one-character separator, over the char list. -/
def splitChars (sep : Char) : List Char → List (List Char)
  | [] => [[]]
  | c :: rest =>
    let r := splitChars sep rest
    if c = sep then [] :: r
    else (c :: r.headD []) :: r.tail

def splitStr (sep : Char) (s : String) : List String :=
  (splitChars sep s.data).map (fun l => String.mk l)

def digitVal (c : Char) : Option Nat :=
  if '0' ≤ c ∧ c ≤ '9' then some (c.toNat - '0'.toNat) else none

def natFromChars : List Char → Nat → Option Nat
  | [], acc => some acc
  | c :: rest, acc =>
    match digitVal c with
    | some d => natFromChars rest (acc * 10 + d)
    | none => none

/-- Python `int(s)` on a plain decimal literal with optional leading `-`. -/
def strToInt (s : String) : Option Int :=
  match s.data with
  | [] => none
  | '-' :: rest =>
    match rest with
    | [] => none
    | _ => (natFromChars rest 0).map (fun n => -(n : Int))
  | l => (natFromChars l 0).map (fun n => (n : Int))

/-- Python `s[0] == c` (an empty string matches nothing). -/
def firstCharIs (c : Char) (s : String) : Bool :=
  match s.data with
  | [] => false
  | d :: _ => d = c

/-- Python `s[1:]`. -/
def strTail (s : String) : String := String.mk s.data.tail

def lastCharIs (c : Char) (s : String) : Bool :=
  match s.data.getLast? with
  | some d => d = c
  | none => false

def joinWith (sep : Char) : List (List Char) → List Char
  | [] => []
  | [l] => l
  | l :: rest => l ++ sep :: joinWith sep rest

/-- `" ".join(tokens)`. -/
def joinTokens (l : List String) : String :=
  String.mk (joinWith ' ' (l.map String.data))

/-- `os.path.dirname` for `/`-separated paths. -/
def dirname (p : String) : String :=
  let parts := splitChars '/' p.data
  if parts.length ≤ 1 then "" else String.mk (joinWith '/' parts.dropLast)

/-- `os.path.join` in the cases the reader exercises: an absolute second
component wins; an empty directory contributes nothing. -/
def pathJoin (d f : String) : String :=
  if firstCharIs '/' f then f
  else if d = "" then f
  else if lastCharIs '/' d then d ++ f
  else d ++ "/" ++ f

/-- `_xdmf_to_numpy_type`: the declared (DataType, Precision) pair table;
any other pair hits the final `assert` (modelled `unknownType`). -/
def xdmfToNumpyType (data_type precision : String) : Except XdmfErr DType :=
  if data_type = "Int" ∧ precision = "4" then Except.ok DType.int32
  else if data_type = "Int" ∧ precision = "8" then Except.ok DType.int64
  else if data_type = "Float" ∧ precision = "4" then Except.ok DType.float32
  else if data_type = "Float" ∧ precision = "8" then Except.ok DType.float64
  else Except.error XdmfErr.unknownType

/-- `numpy_to_xdmf_dtype` (total over the four kinds). -/
def numpy_to_xdmf_dtype : DType → String × String
  | DType.int32 => ("Int", "4")
  | DType.int64 => ("Int", "8")
  | DType.float32 => ("Float", "4")
  | DType.float64 => ("Float", "8")

/-- Python `str.split()` on an attribute string (whitespace runs modelled
as spaces). -/
def tokenize (s : String) : List String := (splitStr ' ' s).filter (fun t => t ≠ "")

def isIntKind : DType → Bool
  | DType.int32 => true
  | DType.int64 => true
  | _ => false

/-- Parsing one text token at the declared kind: `int()`'s `ValueError`
becomes `parseError`; a float token is carried uninterpreted. -/
def parseScalar (d : DType) (tok : String) : Except XdmfErr Scalar :=
  if isIntKind d then
    match strToInt tok with
    | some i => Except.ok (Scalar.intS i)
    | none => Except.error XdmfErr.parseError
  else Except.ok (Scalar.floatS tok)

/-- `[int(d) for d in Dimensions.split()]`; numpy's negative-dimension
inference is outside the modelled scope. -/
def parseDims (s : String) : Except XdmfErr (List Nat) :=
  (tokenize s).mapM (fun t =>
    match strToInt t with
    | some i => if i < 0 then Except.error XdmfErr.shapeMismatch else Except.ok i.toNat
    | none => Except.error XdmfErr.parseError)

/-- One `f[key]` step down the HDF5 hierarchy (`KeyError` → `notFound`). -/
def h5Descend (nd : H5Node) (key : String) : Except XdmfErr H5Node :=
  match nd with
  | H5Node.group entries =>
    match entries.lookup key with
    | some nd2 => Except.ok nd2
    | none => Except.error XdmfErr.notFound
  | H5Node.dataset _ => Except.error XdmfErr.notFound

/-- `XdmfReader.read_data_item`: resolve a declared array descriptor, either
from inline XML text or from an HDF5 container addressed
`"file:/internal/path"` relative to the document's directory. -/
def read_data_item (fs : FileSys) (filename : String) (dt_key : String)
    (item : XElem) : Except XdmfErr NDArray := do
  let dimsS ← getAttr item "Dimensions"
  let dims ← parseDims dimsS
  let data_type ← getAttr item dt_key
  let precision ← getAttr item "Precision"
  let fmt ← getAttr item "Format"
  if fmt = "XML" then do
    let np ← xdmfToNumpyType data_type precision
    let scalars ← item.text.mapM (parseScalar np)
    if dims.foldr (fun a b => a * b) 1 = scalars.length then
      Except.ok ⟨np, dims, scalars⟩
    else Except.error XdmfErr.shapeMismatch
  else if fmt = "HDF" then do
    let addr ← match item.text with
      | [a] => Except.ok a
      | _ => Except.error XdmfErr.malformedDocument
    match splitStr ':' addr with
    | [fname, h5path] =>
      (match fs (pathJoin (dirname filename) fname) with
        | some r => Except.ok r
        | none => Except.error XdmfErr.ioError) >>= fun root =>
      if firstCharIs '/' h5path then
        ((splitStr '/' (strTail h5path)).foldlM h5Descend root) >>= fun nd =>
        match nd with
        | H5Node.dataset arr => Except.ok arr
        | H5Node.group _ => Except.error XdmfErr.notFound
      else Except.error XdmfErr.assertFailed
    | _ => Except.error XdmfErr.parseError
  else Except.error XdmfErr.assertFailed

/-! ### The document readers -/

/-- The mutable local state of the grid-walk loops. -/
structure WalkSt where
  points : Option NDArray
  cells : List (String × NDArray)
  point_data : List (String × NDArray)
  cell_data_raw : List (String × NDArray)

/-- Python dict assignment `d[k] = v`: replace in place or append. -/
def assocSet {α : Type} (l : List (String × α)) (k : String) (v : α) :
    List (String × α) :=
  if l.any (fun p => p.1 == k) then
    l.map (fun p => if p.1 == k then (k, v) else p)
  else l ++ [(k, v)]

/-- The array `data[indices]` built from decoded rows: it inherits `data`'s
dtype and has one row per record. -/
def ndOfRows (d : DType) (rows : List (List Int)) : NDArray :=
  ⟨d, [rows.length, (rows.headD []).length],
   (rows.map (fun row => row.map Scalar.intS)).flatten⟩

/-- The flat integer view of a resolved topology array. A float element
cannot index the integer-keyed tag table (modelled as the same lookup
failure). -/
def asIntList (arr : NDArray) : Except XdmfErr (List Int) :=
  arr.data.mapM (fun s =>
    match s with
    | Scalar.intS i => Except.ok i
    | Scalar.floatS _ => Except.error (XdmfErr.unknownCellTag 0))

/-- One iteration of `read_xdmf3`'s `for c in grid` loop. -/
def walkChild3 (fs : FileSys) (filename : String) (st : WalkSt) (c : XElem) :
    Except XdmfErr WalkSt :=
  if c.tag = "Topology" then do
    let item ← match c.children with
      | [d] => Except.ok d
      | _ => Except.error XdmfErr.malformedDocument
    let data ← read_data_item fs filename "DataType" item
    let ty ← getAttr c "Type"
    if ty = "Mixed" then do
      let flat ← asIntList data
      let tcells ← translate_mixed_cells flat
      Except.ok { st with cells := tcells.map (fun p => (p.1, ndOfRows data.dtype p.2)) }
    else do
      let name ← ofOption (xdmf_to_meshio_type ty) (XdmfErr.unknownTopologyName ty)
      Except.ok { st with cells := assocSet st.cells name data }
  else if c.tag = "Geometry" then do
    let gt ← getAttr c "Type"
    if gt = "XYZ" then do
      let item ← match c.children with
        | [d] => Except.ok d
        | _ => Except.error XdmfErr.malformedDocument
      let pts ← read_data_item fs filename "DataType" item
      Except.ok { st with points := some pts }
    else Except.error XdmfErr.assertFailed
  else if c.tag = "Attribute" then do
    let aty ← getAttr c "Type"
    if aty = "None" then do
      let item ← match c.children with
        | [d] => Except.ok d
        | _ => Except.error XdmfErr.malformedDocument
      let data ← read_data_item fs filename "DataType" item
      let name ← getAttr c "Name"
      let center ← getAttr c "Center"
      if center = "Node" then
        Except.ok { st with point_data := assocSet st.point_data name data }
      else if center = "Cell" then
        Except.ok { st with cell_data_raw := assocSet st.cell_data_raw name data }
      else Except.error XdmfErr.assertFailed
    else Except.error XdmfErr.assertFailed
  else Except.error XdmfErr.malformedDocument

/-- One iteration of `read_xdmf2`'s `for c in grid` loop (version-2 string
topology names, `NumberType` data items, `Center="Grid"` tolerated). -/
def walkChild2 (fs : FileSys) (filename : String) (st : WalkSt) (c : XElem) :
    Except XdmfErr WalkSt :=
  if c.tag = "Topology" then do
    let item ← match c.children with
      | [d] => Except.ok d
      | _ => Except.error XdmfErr.malformedDocument
    let tts ← getAttr c "TopologyType"
    let name ← ofOption (xdmf_to_meshio_type tts) (XdmfErr.unknownTopologyName tts)
    let data ← read_data_item fs filename "NumberType" item
    Except.ok { st with cells := assocSet st.cells name data }
  else if c.tag = "Geometry" then do
    let gt ← getAttr c "GeometryType"
    if gt = "XYZ" then do
      let item ← match c.children with
        | [d] => Except.ok d
        | _ => Except.error XdmfErr.malformedDocument
      let pts ← read_data_item fs filename "NumberType" item
      Except.ok { st with points := some pts }
    else Except.error XdmfErr.assertFailed
  else if c.tag = "Attribute" then do
    let item ← match c.children with
      | [d] => Except.ok d
      | _ => Except.error XdmfErr.malformedDocument
    let data ← read_data_item fs filename "NumberType" item
    let name ← getAttr c "Name"
    let center ← getAttr c "Center"
    if center = "Node" then
      Except.ok { st with point_data := assocSet st.point_data name data }
    else if center = "Cell" then
      Except.ok { st with cell_data_raw := assocSet st.cell_data_raw name data }
    else if center = "Grid" then
      Except.ok st
    else Except.error XdmfErr.assertFailed
  else Except.error XdmfErr.malformedDocument

/-- The mesh record the readers return. `γ` is the (opaque) result type of
the external `cell_data_from_raw` collaborator. -/
structure Mesh (γ : Type) where
  points : Option NDArray
  cells : List (String × NDArray)
  point_data : List (String × NDArray)
  cell_data : γ
  field_data : List (String × NDArray)

/-- `XdmfReader.read_xdmf3`: one Domain, one Grid, walk the children, then
hand raw cell data to the external collaborator `cdfr`. `field_data` is
returned as the initial empty dictionary. -/
def read_xdmf3 {γ : Type}
    (cdfr : List (String × NDArray) → List (String × NDArray) → γ)
    (fs : FileSys) (filename : String) (root : XElem) : Except XdmfErr (Mesh γ) :=
  match root.children with
  | [domain] =>
    if domain.tag = "Domain" then
      match domain.children with
      | [grid] =>
        if grid.tag = "Grid" then
          (grid.children.foldlM (walkChild3 fs filename) ⟨none, [], [], []⟩) >>= fun st =>
          Except.ok ⟨st.points, st.cells, st.point_data, cdfr st.cells st.cell_data_raw, []⟩
        else Except.error XdmfErr.malformedDocument
      | _ => Except.error XdmfErr.malformedDocument
    else Except.error XdmfErr.malformedDocument
  | _ => Except.error XdmfErr.malformedDocument

/-- `XdmfReader.read_xdmf2` (additionally requires `GridType="Uniform"`). -/
def read_xdmf2 {γ : Type}
    (cdfr : List (String × NDArray) → List (String × NDArray) → γ)
    (fs : FileSys) (filename : String) (root : XElem) : Except XdmfErr (Mesh γ) :=
  match root.children with
  | [domain] =>
    if domain.tag = "Domain" then
      match domain.children with
      | [grid] =>
        if grid.tag = "Grid" then
          getAttr grid "GridType" >>= fun gt =>
          if gt = "Uniform" then
            (grid.children.foldlM (walkChild2 fs filename) ⟨none, [], [], []⟩) >>= fun st =>
            Except.ok ⟨st.points, st.cells, st.point_data, cdfr st.cells st.cell_data_raw, []⟩
          else Except.error XdmfErr.assertFailed
        else Except.error XdmfErr.malformedDocument
      | _ => Except.error XdmfErr.malformedDocument
    else Except.error XdmfErr.malformedDocument
  | _ => Except.error XdmfErr.malformedDocument

/-- `XdmfReader.read`: dispatch on the declared major version. -/
def XdmfReader_read {γ : Type}
    (cdfr : List (String × NDArray) → List (String × NDArray) → γ)
    (fs : FileSys) (filename : String) (root : XElem) : Except XdmfErr (Mesh γ) := do
  if root.tag = "Xdmf" then
    getAttr root "Version" >>= fun version =>
    if (splitStr '.' version).headD "" = "2" then read_xdmf2 cdfr fs filename root
    else if (splitStr '.' version).headD "" = "3" then read_xdmf3 cdfr fs filename root
    else Except.error XdmfErr.unsupportedVersion
  else Except.error XdmfErr.malformedDocument

/-! ### The document writer -/

/-- `numpy.savetxt` at the token level: `%d` renders an integer in decimal;
a float token is re-emitted as stored. -/
def renderScalar : Scalar → String
  | Scalar.intS i => toString i
  | Scalar.floatS tok => tok

/-- `numpy_to_xml_string(data, fmt)`: the whitespace-token sequence of the
flattened array. -/
def numpy_to_xml_string (data : NDArray) : List String :=
  data.data.map renderScalar

/-- The rows of a 2-D array of shape `[r, c]` (the writer only handles 2-D
cell arrays, per the §3 data model). -/
def rowsListOf (v : NDArray) : Except XdmfErr (List (List Scalar)) :=
  match v.shape with
  | [r, c] => Except.ok ((List.range r).map (fun i => (v.data.drop (i * c)).take c))
  | _ => Except.error XdmfErr.malformedDocument

/-- The writer's mixed-topology text loop: for each cell type in map order,
one `[tag | row]` line per row (`numpy.column_stack([full(len(value), idx),
value])` + `savetxt('%d')`), at the token level. -/
def mixedText : List (String × NDArray) → Except XdmfErr (List String)
  | [] => Except.ok []
  | (k, v) :: rest => do
    let tag ← ofOption (meshio_type_to_xdmf_index k) (XdmfErr.unknownCellType k)
    let rows ← rowsListOf v
    let rest2 ← mixedText rest
    Except.ok ((rows.map (fun row => toString tag :: row.map renderScalar)).flatten ++ rest2)

/-- One `Attribute` element per data set, with its inlined `DataItem`. -/
def attrElems (center : String) (l : List (String × NDArray)) : List XElem :=
  l.map (fun p =>
    XElem.mk "Attribute" [("Name", p.1), ("Type", "None"), ("Center", center)] []
      [XElem.mk "DataItem"
        [("DataType", (numpy_to_xdmf_dtype p.2.dtype).1),
         ("Dimensions", joinTokens (p.2.shape.map toString)),
         ("Format", "XML"),
         ("Precision", (numpy_to_xdmf_dtype p.2.dtype).2)]
        (numpy_to_xml_string p.2) []])

/-- The Geometry element `write` emits for the point array. -/
def geometryElem (points : NDArray) (pdims : String) : XElem :=
  XElem.mk "Geometry" [("Origin", ""), ("Type", "XYZ")] []
    [XElem.mk "DataItem"
      [("DataType", (numpy_to_xdmf_dtype points.dtype).1),
       ("Dimensions", pdims),
       ("Format", "XML"), ("Precision", (numpy_to_xdmf_dtype points.dtype).2)]
      (numpy_to_xml_string points) []]

/-- The Topology child list `write` emits: none for zero cell types, a
single-type topology for one, a "Mixed" topology for several (its DataType
and Precision deliberately taken from the first key's dtype). -/
def topologyElems (cells : List (String × NDArray)) : Except XdmfErr (List XElem) :=
  match cells with
  | [] => Except.ok ([] : List XElem)
  | [(k, v)] =>
    ofOption (meshio_to_xdmf_type k) (XdmfErr.unknownCellType k) >>= fun xdmf_type =>
    (match v.shape with
      | a :: b :: _ => Except.ok (toString a ++ " " ++ toString b)
      | _ => Except.error XdmfErr.malformedDocument) >>= fun vdims =>
    Except.ok [XElem.mk "Topology" [("Type", xdmf_type)] []
      [XElem.mk "DataItem"
        [("DataType", (numpy_to_xdmf_dtype v.dtype).1),
         ("Dimensions", vdims),
         ("Format", "XML"), ("Precision", (numpy_to_xdmf_dtype v.dtype).2)]
        (numpy_to_xml_string v) []]]
  | (k0, v0) :: c1 :: rest =>
    mixedText ((k0, v0) :: c1 :: rest) >>= fun text =>
    Except.ok [XElem.mk "Topology" [("Type", "Mixed")] []
      [XElem.mk "DataItem"
        [("DataType", (numpy_to_xdmf_dtype v0.dtype).1),
         ("Dimensions", toString
           (((((k0, v0) :: c1 :: rest).map
               (fun p => p.2.shape.foldr (fun a b => a * b) 1)).sum) +
            ((((k0, v0) :: c1 :: rest).map (fun p => p.2.shape.headD 0)).sum))),
         ("Format", "XML"), ("Precision", (numpy_to_xdmf_dtype v0.dtype).2)]
        text []]]

/-- `write`: build the version-3 document tree (serialisation to disk is the
external `write_xml` collaborator). `rfcd` is the external
`raw_from_cell_data` collaborator over an opaque cell-data type `δ`. -/
def write {δ : Type} (rfcd : δ → List (String × NDArray))
    (points : NDArray) (cells : List (String × NDArray))
    (point_data : List (String × NDArray)) (cell_data : δ) :
    Except XdmfErr XElem :=
  (match points.shape with
    | a :: b :: _ => Except.ok (toString a ++ " " ++ toString b)
    | _ => Except.error XdmfErr.malformedDocument) >>= fun pdims =>
  topologyElems cells >>= fun topo =>
  Except.ok (XElem.mk "Xdmf" [("Version", "3.0")] []
    [XElem.mk "Domain" [] []
      [XElem.mk "Grid" [("Name", "Grid")] []
        ([geometryElem points pdims] ++ topo ++ attrElems "Node" point_data ++
          attrElems "Cell" (rfcd cell_data))]])

/-! ### Accessors over a written document tree -/

def emptyElem : XElem := XElem.mk "" [] [] []

/-- The (single) grid of a written tree: `Xdmf → Domain → Grid`. -/
def gridOf (tree : XElem) : XElem :=
  (tree.children.headD emptyElem).children.headD emptyElem

def topologyChildren (tree : XElem) : List XElem :=
  (gridOf tree).children.filter (fun c => c.tag == "Topology")

def topologyItems (tree : XElem) : List XElem :=
  (topologyChildren tree).map (fun c => c.children.headD emptyElem)

def getAttrD (e : XElem) (k : String) : String := (e.attrib.lookup k).getD ""

/-! ### C9: `field_data` is never populated -/

lemma read_xdmf3_fd {γ : Type}
    (cdfr : List (String × NDArray) → List (String × NDArray) → γ)
    (fs : FileSys) (fn : String) (root : XElem) (m : Mesh γ)
    (h : read_xdmf3 cdfr fs fn root = Except.ok m) : m.field_data = [] := by
  unfold read_xdmf3 at h
  split at h
  · split at h
    · split at h
      · split at h
        · obtain ⟨st, _, h2⟩ := except_bind_ok h
          injection h2 with h3
          rw [← h3]
        · cases h
      · cases h
    · cases h
  · cases h

lemma read_xdmf2_fd {γ : Type}
    (cdfr : List (String × NDArray) → List (String × NDArray) → γ)
    (fs : FileSys) (fn : String) (root : XElem) (m : Mesh γ)
    (h : read_xdmf2 cdfr fs fn root = Except.ok m) : m.field_data = [] := by
  unfold read_xdmf2 at h
  split at h
  · split at h
    · split at h
      · split at h
        · obtain ⟨gt, _, h2⟩ := except_bind_ok h
          split at h2
          · obtain ⟨st, _, h3⟩ := except_bind_ok h2
            injection h3 with h4
            rw [← h4]
          · cases h2
        · cases h
      · cases h
    · cases h
  · cases h

/-- C9. For every document either reader accepts (version 2 or version 3),
the returned `field_data` mapping is empty: neither walk ever writes to it
(version-2 `Center="Grid"` attributes are silently skipped). -/
theorem C9_field_data_empty {γ : Type}
    (cdfr : List (String × NDArray) → List (String × NDArray) → γ)
    (fs : FileSys) (fn : String) (root : XElem) (m : Mesh γ)
    (h : XdmfReader_read cdfr fs fn root = Except.ok m) : m.field_data = [] := by
  unfold XdmfReader_read at h
  split at h
  · obtain ⟨v, _, h2⟩ := except_bind_ok h
    split at h2
    · exact read_xdmf2_fd cdfr fs fn root m h2
    · split at h2
      · exact read_xdmf3_fd cdfr fs fn root m h2
      · cases h2
  · cases h

/-- A minimal version-3 document: one empty grid. -/
def docEmptyGrid : XElem :=
  XElem.mk "Xdmf" [("Version", "3.0")] []
    [XElem.mk "Domain" [] [] [XElem.mk "Grid" [("Name", "Grid")] [] []]]

/-- C9 witness: the theorem applied to a concrete accepted document. -/
theorem C9_witness : ∃ m : Mesh Unit,
    XdmfReader_read (fun _ _ => ()) (fun _ => none) "doc.xdmf" docEmptyGrid =
      Except.ok m ∧ m.field_data = [] :=
  ⟨⟨none, [], [], (), []⟩, rfl,
    C9_field_data_empty (fun _ _ => ()) (fun _ => none) "doc.xdmf" docEmptyGrid
      ⟨none, [], [], (), []⟩ rfl⟩

/-! ### C4: two Topology children -/

/-- A single-type Topology element with one inlined integer DataItem. -/
def topoElem (xty dims : String) (toks : List String) : XElem :=
  XElem.mk "Topology" [("Type", xty)] []
    [XElem.mk "DataItem"
      [("DataType", "Int"), ("Dimensions", dims), ("Format", "XML"), ("Precision", "8")]
      toks []]

/-- A version-3 document whose grid holds two Topology children. -/
def docTwoTopologies : XElem :=
  XElem.mk "Xdmf" [("Version", "3.0")] []
    [XElem.mk "Domain" [] []
      [XElem.mk "Grid" [("Name", "Grid")] []
        [topoElem "Triangle" "1 3" ["0", "1", "2"],
         topoElem "Quadrilateral" "1 4" ["0", "1", "2", "3"]]]]

/-- A version-3 document whose single Topology child holds two DataItems. -/
def docDoubleDataItem : XElem :=
  XElem.mk "Xdmf" [("Version", "3.0")] []
    [XElem.mk "Domain" [] []
      [XElem.mk "Grid" [("Name", "Grid")] []
        [XElem.mk "Topology" [("Type", "Triangle")] []
          [XElem.mk "DataItem"
            [("DataType", "Int"), ("Dimensions", "1 3"), ("Format", "XML"), ("Precision", "8")]
            ["0", "1", "2"] [],
           XElem.mk "DataItem"
            [("DataType", "Int"), ("Dimensions", "1 3"), ("Format", "XML"), ("Precision", "8")]
            ["3", "4", "5"] []]]]]

/-- C4 counterexample: the reader accepts a grid with two Topology children
(both are processed, each adding its cell type); it does not fail with
`MalformedDocument`. -/
theorem C4_counterexample :
    XdmfReader_read (fun _ _ => ()) (fun _ => none) "doc.xdmf" docTwoTopologies =
      Except.ok ⟨none,
        [("triangle", ⟨DType.int64, [1, 3], [Scalar.intS 0, Scalar.intS 1, Scalar.intS 2]⟩),
         ("quad", ⟨DType.int64, [1, 4],
           [Scalar.intS 0, Scalar.intS 1, Scalar.intS 2, Scalar.intS 3]⟩)],
        [], (), []⟩ ∧
    XdmfReader_read (fun _ _ => ()) (fun _ => none) "doc.xdmf" docTwoTopologies ≠
      Except.error XdmfErr.malformedDocument := by
  refine ⟨rfl, ?_⟩
  intro hc
  rw [show XdmfReader_read (fun _ _ => ()) (fun _ => none) "doc.xdmf" docTwoTopologies =
    Except.ok ⟨none,
      [("triangle", ⟨DType.int64, [1, 3], [Scalar.intS 0, Scalar.intS 1, Scalar.intS 2]⟩),
       ("quad", ⟨DType.int64, [1, 4],
         [Scalar.intS 0, Scalar.intS 1, Scalar.intS 2, Scalar.intS 3]⟩)],
      [], (), []⟩ from rfl] at hc
  cases hc

/-- C4 (amended). A grid with two Topology children is read successfully,
both children processed in document order, each single-type topology adding
its cell type to the cells map; the `MalformedDocument` failure fires for a
Topology child with two nested DataItem descriptors, not for two Topology
children. -/
theorem C4_two_topologies :
    XdmfReader_read (fun _ _ => ()) (fun _ => none) "doc.xdmf" docTwoTopologies =
      Except.ok ⟨none,
        [("triangle", ⟨DType.int64, [1, 3], [Scalar.intS 0, Scalar.intS 1, Scalar.intS 2]⟩),
         ("quad", ⟨DType.int64, [1, 4],
           [Scalar.intS 0, Scalar.intS 1, Scalar.intS 2, Scalar.intS 3]⟩)],
        [], (), []⟩ ∧
    XdmfReader_read (fun _ _ => ()) (fun _ => none) "doc.xdmf" docDoubleDataItem =
      Except.error XdmfErr.malformedDocument :=
  ⟨rfl, rfl⟩

/-! ### C7: inline DataItem resolution -/

/-- C7. Inline resolution tokenizes on whitespace, parses by the declared
integer kind, and reshapes row-major: `"1 2 3 4"` at shape `[2,2]` yields
`[[1,2],[3,4]]`, while shape `[5]` on the same text fails with
`ShapeMismatch` (the `reshape` `ValueError`). -/
theorem C7_inline_resolution :
    read_data_item (fun _ => none) "doc.xdmf" "DataType"
      (XElem.mk "DataItem"
        [("DataType", "Int"), ("Dimensions", "2 2"), ("Format", "XML"), ("Precision", "4")]
        ["1", "2", "3", "4"] []) =
      Except.ok ⟨DType.int32, [2, 2],
        [Scalar.intS 1, Scalar.intS 2, Scalar.intS 3, Scalar.intS 4]⟩ ∧
    rowsListOf ⟨DType.int32, [2, 2],
        [Scalar.intS 1, Scalar.intS 2, Scalar.intS 3, Scalar.intS 4]⟩ =
      Except.ok [[Scalar.intS 1, Scalar.intS 2], [Scalar.intS 3, Scalar.intS 4]] ∧
    read_data_item (fun _ => none) "doc.xdmf" "DataType"
      (XElem.mk "DataItem"
        [("DataType", "Int"), ("Dimensions", "5"), ("Format", "XML"), ("Precision", "4")]
        ["1", "2", "3", "4"] []) =
      Except.error XdmfErr.shapeMismatch :=
  ⟨rfl, rfl, rfl⟩

/-! ### C8: external DataItem resolution -/

/-- A DataItem holding an external (HDF) address. -/
def hdfItem (addr : String) : XElem :=
  XElem.mk "DataItem"
    [("DataType", "Int"), ("Dimensions", "1"), ("Format", "HDF"), ("Precision", "4")]
    [addr] []

lemma read_hdf_ab (fs : FileSys) (docpath : String) :
    read_data_item fs docpath "DataType" (hdfItem "data.bin:/a/b") =
      (match fs (pathJoin (dirname docpath) "data.bin") with
        | some r => Except.ok r
        | none => Except.error XdmfErr.ioError) >>= fun root =>
      (h5Descend root "a" >>= fun n1 => h5Descend n1 "b" >>= fun n2 => pure n2) >>=
        fun nd =>
      (match nd with
        | H5Node.dataset arr => Except.ok arr
        | H5Node.group _ => Except.error XdmfErr.notFound) := rfl

lemma read_hdf_noslash (fs : FileSys) (docpath : String) :
    read_data_item fs docpath "DataType" (hdfItem "data.bin:a/b") =
      (match fs (pathJoin (dirname docpath) "data.bin") with
        | some r => Except.ok r
        | none => Except.error XdmfErr.ioError) >>= fun root =>
      Except.error XdmfErr.assertFailed := rfl

/-- C8. Resolving the external address `"data.bin:/a/b"` opens `data.bin`
relative to the directory of the document, requires the internal path to
start with `/` (the container is opened before that check), and descends
the group hierarchy one segment at a time (`a`, then `b`), failing with
`NotFound` when a segment is absent and returning the dataset when the
descent lands on one. -/
theorem C8_external_resolution (fs : FileSys) (docpath : String)
    (g1 g2 : List (String × H5Node)) (arr : NDArray)
    (hopen : fs (pathJoin (dirname docpath) "data.bin") = some (H5Node.group g1))
    (ha : g1.lookup "a" = some (H5Node.group g2)) :
    (g2.lookup "b" = none →
      read_data_item fs docpath "DataType" (hdfItem "data.bin:/a/b") =
        Except.error XdmfErr.notFound) ∧
    (g2.lookup "b" = some (H5Node.dataset arr) →
      read_data_item fs docpath "DataType" (hdfItem "data.bin:/a/b") =
        Except.ok arr) ∧
    read_data_item fs docpath "DataType" (hdfItem "data.bin:a/b") =
      Except.error XdmfErr.assertFailed := by
  have hda : h5Descend (H5Node.group g1) "a" = Except.ok (H5Node.group g2) := by
    show (match g1.lookup "a" with
      | some nd2 => Except.ok nd2
      | none => Except.error XdmfErr.notFound) = _
    rw [ha]
  have hbase : read_data_item fs docpath "DataType" (hdfItem "data.bin:/a/b") =
      (h5Descend (H5Node.group g1) "a" >>= fun n1 =>
        h5Descend n1 "b" >>= fun n2 => pure n2) >>= fun nd =>
      (match nd with
        | H5Node.dataset arr => Except.ok arr
        | H5Node.group _ => Except.error XdmfErr.notFound) := by
    rw [read_hdf_ab fs docpath, hopen]
    rfl
  rw [hda] at hbase
  simp only [except_ok_bind] at hbase
  refine ⟨?_, ?_, ?_⟩
  · intro hb
    have hdb : h5Descend (H5Node.group g2) "b" = Except.error XdmfErr.notFound := by
      show (match g2.lookup "b" with
        | some nd2 => Except.ok nd2
        | none => Except.error XdmfErr.notFound) = _
      rw [hb]
    rw [hdb] at hbase
    simpa using hbase
  · intro hb
    have hdb : h5Descend (H5Node.group g2) "b" = Except.ok (H5Node.dataset arr) := by
      show (match g2.lookup "b" with
        | some nd2 => Except.ok nd2
        | none => Except.error XdmfErr.notFound) = _
      rw [hb]
    rw [hdb] at hbase
    simpa using hbase
  · have h2 : read_data_item fs docpath "DataType" (hdfItem "data.bin:a/b") =
        (Except.ok (H5Node.group g1) >>= fun _ => Except.error XdmfErr.assertFailed) := by
      rw [read_hdf_noslash fs docpath, hopen]
    simpa using h2

/-- C8 witness: the theorem applied at a concrete one-group container. -/
theorem C8_witness :
    read_data_item
      (fun p => if p = "data.bin" then some (H5Node.group [("a", H5Node.group [])]) else none)
      "doc.xdmf" "DataType" (hdfItem "data.bin:/a/b") =
      Except.error XdmfErr.notFound :=
  (C8_external_resolution
    (fun p => if p = "data.bin" then some (H5Node.group [("a", H5Node.group [])]) else none)
    "doc.xdmf" [("a", H5Node.group [])] [] ⟨DType.int32, [], []⟩ rfl rfl).1 rfl

/-! ### C6 and C10: the writer's Topology child -/

def scalarToInt : Scalar → Int
  | Scalar.intS i => i
  | Scalar.floatS _ => 0

/-- The integer rows of a 2-D cell array. -/
def intRowsOf (v : NDArray) : List (List Int) :=
  match v.shape with
  | [r, c] => (List.range r).map (fun i => ((v.data.drop (i * c)).take c).map scalarToInt)
  | _ => []

lemma filter_topology_attrElems (center : String) (l : List (String × NDArray)) :
    (attrElems center l).filter (fun c => c.tag == "Topology") = [] := by
  rw [List.filter_eq_nil_iff]
  intro e he
  obtain ⟨p, _, hp⟩ := List.mem_map.mp he
  rw [← hp]
  simp [XElem.tag]

lemma topologyElems_nil : topologyElems [] = Except.ok [] := rfl

lemma topologyElems_single (k : String) (v : NDArray) (xt : String) (ra rb : Nat)
    (t3 : List Nat) (hxt : meshio_to_xdmf_type k = some xt)
    (hvs : v.shape = ra :: rb :: t3) :
    topologyElems [(k, v)] = Except.ok
      [XElem.mk "Topology" [("Type", xt)] []
        [XElem.mk "DataItem"
          [("DataType", (numpy_to_xdmf_dtype v.dtype).1),
           ("Dimensions", toString ra ++ " " ++ toString rb),
           ("Format", "XML"), ("Precision", (numpy_to_xdmf_dtype v.dtype).2)]
          (numpy_to_xml_string v) []]] := by
  simp only [topologyElems]
  rw [hxt]
  simp only [ofOption_some, except_ok_bind]
  rw [hvs]
  rfl

lemma topologyElems_mixed (k0 : String) (v0 : NDArray) (c1 : String × NDArray)
    (rest : List (String × NDArray)) (text : List String)
    (htext : mixedText ((k0, v0) :: c1 :: rest) = Except.ok text) :
    topologyElems ((k0, v0) :: c1 :: rest) = Except.ok
      [XElem.mk "Topology" [("Type", "Mixed")] []
        [XElem.mk "DataItem"
          [("DataType", (numpy_to_xdmf_dtype v0.dtype).1),
           ("Dimensions", toString
             (((((k0, v0) :: c1 :: rest).map
                 (fun p => p.2.shape.foldr (fun a b => a * b) 1)).sum) +
              ((((k0, v0) :: c1 :: rest).map (fun p => p.2.shape.headD 0)).sum))),
           ("Format", "XML"), ("Precision", (numpy_to_xdmf_dtype v0.dtype).2)]
          text []]] := by
  simp only [topologyElems]
  rw [htext]
  rfl

lemma write_unfold {δ : Type} (rfcd : δ → List (String × NDArray))
    (points : NDArray) (cells : List (String × NDArray))
    (point_data : List (String × NDArray)) (cell_data : δ)
    (a b : Nat) (t2 : List Nat) (hps : points.shape = a :: b :: t2) :
    write rfcd points cells point_data cell_data =
      topologyElems cells >>= fun topo =>
      Except.ok (XElem.mk "Xdmf" [("Version", "3.0")] []
        [XElem.mk "Domain" [] []
          [XElem.mk "Grid" [("Name", "Grid")] []
            ([geometryElem points (toString a ++ " " ++ toString b)] ++ topo ++
              attrElems "Node" point_data ++ attrElems "Cell" (rfcd cell_data))]]) := by
  unfold write
  rw [hps]
  rfl

lemma topologyChildren_tree (ge : XElem) (topoList : List XElem)
    (pdl cdl : List (String × NDArray)) (hge : ge.tag = "Geometry") :
    topologyChildren (XElem.mk "Xdmf" [("Version", "3.0")] []
      [XElem.mk "Domain" [] []
        [XElem.mk "Grid" [("Name", "Grid")] []
          ([ge] ++ topoList ++ attrElems "Node" pdl ++ attrElems "Cell" cdl)]]) =
      topoList.filter (fun c => c.tag == "Topology") := by
  unfold topologyChildren gridOf
  show (([ge] ++ topoList ++ attrElems "Node" pdl ++ attrElems "Cell" cdl).filter
    (fun c => c.tag == "Topology")) = _
  rw [List.filter_append, List.filter_append, List.filter_append,
    filter_topology_attrElems, filter_topology_attrElems]
  have hgeo : ([ge].filter (fun c => c.tag == "Topology")) = [] := by
    simp [List.filter, hge]
  rw [hgeo]
  simp

lemma mixedText_isOk : ∀ cells : List (String × NDArray),
    (∀ p ∈ cells, (meshio_type_to_xdmf_index p.1).isSome ∧ ∃ r c, p.2.shape = [r, c]) →
    ∃ toks, mixedText cells = Except.ok toks := by
  intro cells
  induction cells with
  | nil => intro _; exact ⟨[], rfl⟩
  | cons q rest ih =>
    obtain ⟨k, v⟩ := q
    intro h
    obtain ⟨htag, r, c, hshape⟩ := h (k, v) (by simp)
    obtain ⟨tk, htk⟩ := Option.isSome_iff_exists.mp htag
    obtain ⟨toks, htoks⟩ := ih (fun p hp => h p (by simp [hp]))
    have hrows : rowsListOf v =
        Except.ok ((List.range r).map (fun i => (v.data.drop (i * c)).take c)) := by
      unfold rowsListOf
      rw [hshape]
    refine ⟨(((List.range r).map (fun i => (v.data.drop (i * c)).take c)).map
      (fun row => toString tk :: row.map renderScalar)).flatten ++ toks, ?_⟩
    unfold mixedText
    rw [htk]
    simp only [ofOption_some, except_ok_bind]
    rw [hrows]
    simp only [except_ok_bind]
    rw [htoks]
    rfl

lemma mixedText_eq_encode : ∀ cells : List (String × NDArray),
    (∀ p ∈ cells, (meshio_type_to_xdmf_index p.1).isSome ∧ ∃ r c, p.2.shape = [r, c]) →
    (∀ p ∈ cells, ∀ s ∈ p.2.data, ∃ i, s = Scalar.intS i) →
    ∃ flat, encodeMixedCells (cells.map (fun p => (p.1, intRowsOf p.2))) = Except.ok flat ∧
      mixedText cells = Except.ok (flat.map toString) := by
  intro cells
  induction cells with
  | nil => intro _ _; exact ⟨[], rfl, rfl⟩
  | cons q rest ih =>
    obtain ⟨k, v⟩ := q
    intro hsh hint
    obtain ⟨htag, r, c, hshape⟩ := hsh (k, v) (by simp)
    obtain ⟨tk, htk⟩ := Option.isSome_iff_exists.mp htag
    obtain ⟨flatR, hencR, htxtR⟩ := ih (fun p hp => hsh p (by simp [hp]))
      (fun p hp => hint p (by simp [hp]))
    have hrows : rowsListOf v =
        Except.ok ((List.range r).map (fun i => (v.data.drop (i * c)).take c)) := by
      unfold rowsListOf
      rw [hshape]
    have hirows : intRowsOf v =
        ((List.range r).map (fun i => (v.data.drop (i * c)).take c)).map
          (List.map scalarToInt) := by
      unfold intRowsOf
      rw [hshape, List.map_map]
      rfl
    refine ⟨((intRowsOf v).map (fun row => tk :: row)).flatten ++ flatR, ?_, ?_⟩
    · rw [List.map_cons]
      unfold encodeMixedCells
      rw [htk]
      simp only [ofOption_some, except_ok_bind]
      rw [hencR]
      rfl
    · unfold mixedText
      rw [htk]
      simp only [ofOption_some, except_ok_bind]
      rw [hrows]
      simp only [except_ok_bind]
      rw [htxtR]
      simp only [except_ok_bind]
      refine congrArg Except.ok ?_
      rw [List.map_append]
      refine congrArg (fun l => l ++ flatR.map toString) ?_
      rw [hirows, List.map_flatten]
      simp only [List.map_map]
      refine congrArg List.flatten ?_
      apply List.map_congr_left
      intro i hi
      show toString tk :: ((v.data.drop (i * c)).take c).map renderScalar =
        (tk :: ((v.data.drop (i * c)).take c).map scalarToInt).map toString
      rw [List.map_cons, List.map_map]
      refine congrArg (fun l => toString tk :: l) ?_
      apply List.map_congr_left
      intro s hs
      have hsv : s ∈ v.data := List.mem_of_mem_drop (List.mem_of_mem_take hs)
      obtain ⟨j, hj⟩ := hint (k, v) (by simp) s hsv
      rw [hj]
      rfl

lemma sum_dim_eq : ∀ cells : List (String × NDArray),
    (∀ p ∈ cells, ∃ t r n, meshio_type_to_xdmf_index p.1 = some t ∧
      xdmf_idx_to_num_nodes t = some n ∧ p.2.shape = [r, n]) →
    ((cells.map (fun p => p.2.shape.foldr (fun a b => a * b) 1)).sum) +
      ((cells.map (fun p => p.2.shape.headD 0)).sum) =
    (cells.map (fun p =>
      (((xdmf_idx_to_num_nodes ((meshio_type_to_xdmf_index p.1).getD 0)).getD 0 + 1) *
        p.2.shape.headD 0))).sum := by
  intro cells
  induction cells with
  | nil => intro _; rfl
  | cons q rest ih =>
    obtain ⟨k, v⟩ := q
    intro h
    obtain ⟨t, r, n, ht, hn, hshape⟩ := h (k, v) (by simp)
    have ihr := ih (fun p hp => h p (by simp [hp]))
    simp only [List.map_cons, List.sum_cons]
    rw [hshape]
    simp only [ht, Option.getD_some, hn]
    show r * (n * 1) + _ + (r + _) = (n + 1) * r + _
    rw [← ihr]
    ring

/-- C6 (amended). The writer emits exactly one Topology child when the
cells mapping has one type (a single-type topology) or several types all of
which are in the seven-entry mixed-tag table (a "Mixed" topology whose
inlined token buffer is the rendering of the mixed-cell encode output and
whose declared total dimension is `Σ (arity(type)+1) * rowcount(type)`); it
emits no Topology child when cells is empty. A multi-type mapping with a
type outside the tag table (e.g. triangle6) makes `write` fail instead. -/
theorem C6_topology_emission {δ : Type} (rfcd : δ → List (String × NDArray))
    (points : NDArray) (cells : List (String × NDArray))
    (point_data : List (String × NDArray)) (cell_data : δ)
    (hpts : ∃ a b t2, points.shape = a :: b :: t2)
    (hsingle : ∀ k v, cells = [(k, v)] →
      (meshio_to_xdmf_type k).isSome ∧ ∃ a b t3, v.shape = a :: b :: t3)
    (hmulti : 2 ≤ cells.length → ∀ p ∈ cells,
      ∃ t r n, meshio_type_to_xdmf_index p.1 = some t ∧
        xdmf_idx_to_num_nodes t = some n ∧ p.2.shape = [r, n])
    (hint : 2 ≤ cells.length → ∀ p ∈ cells, ∀ s ∈ p.2.data, ∃ i, s = Scalar.intS i) :
    ∃ tree, write rfcd points cells point_data cell_data = Except.ok tree ∧
      (topologyChildren tree).length = (if cells.length = 0 then 0 else 1) ∧
      (2 ≤ cells.length →
        (topologyChildren tree).map (fun c => getAttrD c "Type") = ["Mixed"] ∧
        (topologyItems tree).map (fun c => getAttrD c "Dimensions") =
          [toString ((cells.map (fun p =>
            (((xdmf_idx_to_num_nodes ((meshio_type_to_xdmf_index p.1).getD 0)).getD 0 + 1) *
              p.2.shape.headD 0))).sum)] ∧
        ∃ flat, encodeMixedCells (cells.map (fun p => (p.1, intRowsOf p.2))) =
            Except.ok flat ∧
          (topologyItems tree).map XElem.text = [flat.map toString]) := by
  obtain ⟨a, b, t2, hps⟩ := hpts
  have hw := write_unfold rfcd points cells point_data cell_data a b t2 hps
  match cells with
  | [] =>
    rw [topologyElems_nil] at hw
    simp only [except_ok_bind] at hw
    refine ⟨_, hw, ?_, ?_⟩
    · rw [topologyChildren_tree (geometryElem points (toString a ++ " " ++ toString b)) _ _ _ rfl]
      rfl
    · intro hlen
      simp at hlen
  | [(k, v)] =>
    obtain ⟨hxt, ra, rb, t3, hvs⟩ := hsingle k v rfl
    obtain ⟨xt, hxt2⟩ := Option.isSome_iff_exists.mp hxt
    rw [topologyElems_single k v xt ra rb t3 hxt2 hvs] at hw
    simp only [except_ok_bind] at hw
    refine ⟨_, hw, ?_, ?_⟩
    · rw [topologyChildren_tree (geometryElem points (toString a ++ " " ++ toString b)) _ _ _ rfl]
      rfl
    · intro hlen
      simp at hlen
  | (k0, v0) :: c1 :: rest =>
    have hlen2 : 2 ≤ ((k0, v0) :: c1 :: rest).length := by simp
    obtain ⟨flat, henc, htxt⟩ := mixedText_eq_encode ((k0, v0) :: c1 :: rest)
      (by
        intro p hp
        obtain ⟨t, r, n, ht, hn, hshape⟩ := hmulti hlen2 p hp
        exact ⟨by simp [ht], r, n, hshape⟩)
      (hint hlen2)
    rw [topologyElems_mixed k0 v0 c1 rest (flat.map toString) htxt] at hw
    simp only [except_ok_bind] at hw
    refine ⟨_, hw, ?_, ?_⟩
    · rw [topologyChildren_tree (geometryElem points (toString a ++ " " ++ toString b)) _ _ _ rfl]
      rfl
    · intro _
      refine ⟨?_, ?_, flat, henc, ?_⟩
      · rw [topologyChildren_tree (geometryElem points (toString a ++ " " ++ toString b)) _ _ _ rfl]
        rfl
      · unfold topologyItems
        rw [topologyChildren_tree (geometryElem points (toString a ++ " " ++ toString b)) _ _ _ rfl]
        show [getAttrD (XElem.mk "DataItem" _ _ _) "Dimensions"] = _
        rw [show getAttrD (XElem.mk "DataItem"
          [("DataType", (numpy_to_xdmf_dtype v0.dtype).1),
           ("Dimensions", toString
             (((((k0, v0) :: c1 :: rest).map
                 (fun p => p.2.shape.foldr (fun a2 b2 => a2 * b2) 1)).sum) +
              ((((k0, v0) :: c1 :: rest).map (fun p => p.2.shape.headD 0)).sum))),
           ("Format", "XML"), ("Precision", (numpy_to_xdmf_dtype v0.dtype).2)]
          (flat.map toString) []) "Dimensions" = toString
             (((((k0, v0) :: c1 :: rest).map
                 (fun p => p.2.shape.foldr (fun a2 b2 => a2 * b2) 1)).sum) +
              ((((k0, v0) :: c1 :: rest).map (fun p => p.2.shape.headD 0)).sum))
          from rfl]
        rw [sum_dim_eq ((k0, v0) :: c1 :: rest) (hmulti hlen2)]
      · unfold topologyItems
        rw [topologyChildren_tree (geometryElem points (toString a ++ " " ++ toString b)) _ _ _ rfl]
        rfl

/-- C6 counterexample: a two-type mapping containing `triangle6` (which the
spec's §3 table lists with mixed tag 11) makes `write` raise the
`meshio_type_to_xdmf_index` `KeyError`: no document tree and no Topology
child is produced. -/
theorem C6_counterexample :
    write (fun (_ : Unit) => []) ⟨DType.float64, [4, 3], []⟩
      [("triangle6", ⟨DType.int64, [1, 6],
        [Scalar.intS 0, Scalar.intS 1, Scalar.intS 2,
         Scalar.intS 3, Scalar.intS 4, Scalar.intS 5]⟩),
       ("quad", ⟨DType.int64, [1, 4],
        [Scalar.intS 0, Scalar.intS 1, Scalar.intS 2, Scalar.intS 3]⟩)] [] () =
      Except.error (XdmfErr.unknownCellType "triangle6") ∧
    ∀ tree, write (fun (_ : Unit) => []) ⟨DType.float64, [4, 3], []⟩
      [("triangle6", ⟨DType.int64, [1, 6],
        [Scalar.intS 0, Scalar.intS 1, Scalar.intS 2,
         Scalar.intS 3, Scalar.intS 4, Scalar.intS 5]⟩),
       ("quad", ⟨DType.int64, [1, 4],
        [Scalar.intS 0, Scalar.intS 1, Scalar.intS 2, Scalar.intS 3]⟩)] [] () ≠
      Except.ok tree := by
  refine ⟨rfl, ?_⟩
  intro tree h
  rw [show write (fun (_ : Unit) => []) ⟨DType.float64, [4, 3], []⟩
      [("triangle6", ⟨DType.int64, [1, 6],
        [Scalar.intS 0, Scalar.intS 1, Scalar.intS 2,
         Scalar.intS 3, Scalar.intS 4, Scalar.intS 5]⟩),
       ("quad", ⟨DType.int64, [1, 4],
        [Scalar.intS 0, Scalar.intS 1, Scalar.intS 2, Scalar.intS 3]⟩)] [] () =
      Except.error (XdmfErr.unknownCellType "triangle6") from rfl] at h
  cases h

/-- C6 witness: the amended theorem applied at a concrete two-type mesh. -/
theorem C6_witness : ∃ tree,
    write (fun (_ : Unit) => []) ⟨DType.float64, [1, 3], [Scalar.floatS "0"]⟩
      [("triangle", ⟨DType.int64, [1, 3], [Scalar.intS 0, Scalar.intS 1, Scalar.intS 2]⟩),
       ("quad", ⟨DType.int64, [1, 4],
         [Scalar.intS 0, Scalar.intS 1, Scalar.intS 2, Scalar.intS 3]⟩)] [] () =
      Except.ok tree ∧
    (topologyChildren tree).length =
      (if ([("triangle", (⟨DType.int64, [1, 3],
          [Scalar.intS 0, Scalar.intS 1, Scalar.intS 2]⟩ : NDArray)),
        ("quad", ⟨DType.int64, [1, 4],
          [Scalar.intS 0, Scalar.intS 1, Scalar.intS 2, Scalar.intS 3]⟩)].length = 0)
        then 0 else 1) ∧
    (2 ≤ ([("triangle", (⟨DType.int64, [1, 3],
        [Scalar.intS 0, Scalar.intS 1, Scalar.intS 2]⟩ : NDArray)),
      ("quad", ⟨DType.int64, [1, 4],
        [Scalar.intS 0, Scalar.intS 1, Scalar.intS 2, Scalar.intS 3]⟩)].length) →
      (topologyChildren tree).map (fun c => getAttrD c "Type") = ["Mixed"] ∧
      (topologyItems tree).map (fun c => getAttrD c "Dimensions") =
        [toString (([("triangle", (⟨DType.int64, [1, 3],
            [Scalar.intS 0, Scalar.intS 1, Scalar.intS 2]⟩ : NDArray)),
          ("quad", ⟨DType.int64, [1, 4],
            [Scalar.intS 0, Scalar.intS 1, Scalar.intS 2, Scalar.intS 3]⟩)].map (fun p =>
          (((xdmf_idx_to_num_nodes ((meshio_type_to_xdmf_index p.1).getD 0)).getD 0 + 1) *
            p.2.shape.headD 0))).sum)] ∧
      ∃ flat, encodeMixedCells ([("triangle", (⟨DType.int64, [1, 3],
          [Scalar.intS 0, Scalar.intS 1, Scalar.intS 2]⟩ : NDArray)),
        ("quad", ⟨DType.int64, [1, 4],
          [Scalar.intS 0, Scalar.intS 1, Scalar.intS 2, Scalar.intS 3]⟩)].map
            (fun p => (p.1, intRowsOf p.2))) = Except.ok flat ∧
        (topologyItems tree).map XElem.text = [flat.map toString]) :=
  C6_topology_emission (fun (_ : Unit) => []) ⟨DType.float64, [1, 3], [Scalar.floatS "0"]⟩
    [("triangle", ⟨DType.int64, [1, 3], [Scalar.intS 0, Scalar.intS 1, Scalar.intS 2]⟩),
     ("quad", ⟨DType.int64, [1, 4],
       [Scalar.intS 0, Scalar.intS 1, Scalar.intS 2, Scalar.intS 3]⟩)] [] ()
    ⟨1, 3, [], rfl⟩
    (by intro k v h; simp at h)
    (by
      intro _ p hp
      fin_cases hp
      · exact ⟨4, 1, 3, by decide, by decide, rfl⟩
      · exact ⟨5, 1, 4, by decide, by decide, rfl⟩)
    (by
      intro _ p hp
      fin_cases hp
      · intro s hs
        fin_cases hs
        · exact ⟨0, rfl⟩
        · exact ⟨1, rfl⟩
        · exact ⟨2, rfl⟩
      · intro s hs
        fin_cases hs
        · exact ⟨0, rfl⟩
        · exact ⟨1, rfl⟩
        · exact ⟨2, rfl⟩
        · exact ⟨3, rfl⟩)

/-- C10. When the writer emits a "Mixed" topology (two or more cell types),
the declared DataType and Precision of the topology's DataItem come from
the dtype of the FIRST cell type's array in map order, with no constraint
relating them to the other arrays' dtypes. -/
theorem C10_mixed_dtype_first {δ : Type} (rfcd : δ → List (String × NDArray))
    (points : NDArray) (k0 : String) (v0 : NDArray) (c1 : String × NDArray)
    (rest : List (String × NDArray))
    (point_data : List (String × NDArray)) (cell_data : δ)
    (hpts : ∃ a b t2, points.shape = a :: b :: t2)
    (hall : ∀ p ∈ (k0, v0) :: c1 :: rest,
      (meshio_type_to_xdmf_index p.1).isSome ∧ ∃ r c, p.2.shape = [r, c]) :
    ∃ tree, write rfcd points ((k0, v0) :: c1 :: rest) point_data cell_data =
        Except.ok tree ∧
      (topologyItems tree).map
        (fun it => (getAttrD it "DataType", getAttrD it "Precision")) =
        [numpy_to_xdmf_dtype v0.dtype] := by
  obtain ⟨a, b, t2, hps⟩ := hpts
  have hw := write_unfold rfcd points ((k0, v0) :: c1 :: rest) point_data cell_data
    a b t2 hps
  obtain ⟨text, htxt⟩ := mixedText_isOk ((k0, v0) :: c1 :: rest) hall
  rw [topologyElems_mixed k0 v0 c1 rest text htxt] at hw
  simp only [except_ok_bind] at hw
  refine ⟨_, hw, ?_⟩
  unfold topologyItems
  rw [topologyChildren_tree (geometryElem points (toString a ++ " " ++ toString b)) _ _ _ rfl]
  rfl

/-- C10 witness: the theorem applied with a float64 second array — the
emitted DataType/Precision still come from the first (int64) array. -/
theorem C10_witness : ∃ tree,
    write (fun (_ : Unit) => []) ⟨DType.float64, [1, 3], [Scalar.floatS "0"]⟩
      [("triangle", ⟨DType.int64, [1, 3], [Scalar.intS 0, Scalar.intS 1, Scalar.intS 2]⟩),
       ("quad", ⟨DType.float64, [1, 4],
         [Scalar.floatS "0", Scalar.floatS "1", Scalar.floatS "2", Scalar.floatS "3"]⟩)]
      [] () = Except.ok tree ∧
    (topologyItems tree).map
      (fun it => (getAttrD it "DataType", getAttrD it "Precision")) = [("Int", "8")] :=
  C10_mixed_dtype_first (fun (_ : Unit) => []) ⟨DType.float64, [1, 3], [Scalar.floatS "0"]⟩
    "triangle" ⟨DType.int64, [1, 3], [Scalar.intS 0, Scalar.intS 1, Scalar.intS 2]⟩
    ("quad", ⟨DType.float64, [1, 4],
      [Scalar.floatS "0", Scalar.floatS "1", Scalar.floatS "2", Scalar.floatS "3"]⟩)
    [] [] () ⟨1, 3, [], rfl⟩
    (by
      intro p hp
      fin_cases hp
      · exact ⟨by decide, 1, 3, rfl⟩
      · exact ⟨by decide, 1, 4, rfl⟩)
